import Mathlib

/-!
Verification of the netparser packet decoder.

The Rust sources are shallowly embedded: every protocol decoder below is a
direct translation of the corresponding function in the repository.  Bytes are
modelled as natural numbers (inputs are lists of values below 256), byte
slices as lists, and a nom-style parser as a function from the input list to a
result that is either success (remaining input plus the decoded value), a
parse error, or a Rust panic.  The error chain carried by the Rust error type
is not needed by any property proved here and is collapsed into the single
error constructor; success, failure and panic behaviour, the decoded values
and the remaining input are modelled exactly.
-/

namespace Netparse

/-- Result of running a nom-style parser: success carries the remaining input
and the decoded value; err corresponds to a nom error result; panicked
corresponds to a Rust panic (index out of bounds, expect, and so on). -/
inductive PResult (α : Type) where
  | ok (rest : List Nat) (val : α)
  | err
  | panicked
deriving Repr, DecidableEq

/-- A byte-level parser, as in core/parse.rs: Input is a byte slice, the
result threads the remaining slice through on success. -/
def Parse (α : Type) : Type := List Nat → PResult α

/-- Monadic return: consume nothing, yield the value. -/
def Parse.pure (a : α) : Parse α := fun i => .ok i a

/-- Monadic bind, mirroring the question-mark operator of the Rust code:
errors and panics propagate, success continues on the remaining input. -/
def Parse.bind (p : Parse α) (f : α → Parse β) : Parse β := fun i =>
  match p i with
  | .ok rest v => f v rest
  | .err => .err
  | .panicked => .panicked

instance : Monad Parse where
  pure := Parse.pure
  bind := Parse.bind

theorem bindDef {α β : Type} :
    (Bind.bind : Parse α → (α → Parse β) → Parse β) = Parse.bind := rfl

theorem pureDef {α : Type} : (Pure.pure : α → Parse α) = Parse.pure := rfl

/-- Embedding of nom bytes::complete::take(n): consume exactly n bytes or
fail. -/
def takeN (n : Nat) : Parse (List Nat) := fun i =>
  if n ≤ i.length then .ok (i.drop n) (i.take n) else .err

/-- Embedding of nom number::complete::be_u8 / le_u8 (identical on one
byte). -/
def beU8 : Parse Nat := fun i =>
  match i with
  | [] => .err
  | b :: rest => .ok rest b

/-- Big-endian u16, as nom be_u16. -/
def beU16 : Parse Nat := fun i =>
  match i with
  | b0 :: b1 :: rest => .ok rest (b0 * 256 + b1)
  | _ => .err

/-- Big-endian u32, as nom be_u32. -/
def beU32 : Parse Nat := fun i =>
  match i with
  | b0 :: b1 :: b2 :: b3 :: rest =>
      .ok rest (((b0 * 256 + b1) * 256 + b2) * 256 + b3)
  | _ => .err

/-- Little-endian u16, as nom le_u16. -/
def leU16 : Parse Nat := fun i =>
  match i with
  | b0 :: b1 :: rest => .ok rest (b0 + b1 * 256)
  | _ => .err

/-- Little-endian u32, as nom le_u32. -/
def leU32 : Parse Nat := fun i =>
  match i with
  | b0 :: b1 :: b2 :: b3 :: rest =>
      .ok rest (b0 + 256 * (b1 + 256 * (b2 + 256 * b3)))
  | _ => .err

/-- Little-endian u64, as nom le_u64. -/
def leU64 : Parse Nat := fun i =>
  match i with
  | b0 :: b1 :: b2 :: b3 :: b4 :: b5 :: b6 :: b7 :: rest =>
      .ok rest (b0 + 256 * (b1 + 256 * (b2 + 256 * (b3 + 256 *
        (b4 + 256 * (b5 + 256 * (b6 + 256 * b7)))))))
  | _ => .err

/-- Reads the current input without consuming it; used to mirror Rust code
that saves the input slice into a local (let original_i = i). -/
def getInput : Parse (List Nat) := fun i => .ok i i

/-- Replaces the current input; used to mirror Rust code that resumes parsing
from a previously saved slice. -/
def setInput (j : List Nat) : Parse Unit := fun _ => .ok j ()

/-- Runs p for its value but keeps the current input, mirroring the Rust
pattern: let (_, v) = p(i)? -/
def peek (p : Parse α) : Parse α := fun i =>
  match p i with
  | .ok _ v => .ok i v
  | .err => .err
  | .panicked => .panicked

/-- The eight bits of a byte, most significant first. -/
def byteBits (b : Nat) : List Nat :=
  [b / 128 % 2, b / 64 % 2, b / 32 % 2, b / 16 % 2,
   b / 8 % 2, b / 4 % 2, b / 2 % 2, b % 2]

/-- Value of a bit string read most-significant-bit first. -/
def natFromBits (l : List Nat) : Nat := l.foldl (fun a b => 2 * a + b) 0

/-- A bit-level cursor, as in core/parse.rs: a byte slice together with the
bit offset into its first byte. -/
def BitState : Type := List Nat × Nat

/-- A bit-level parser result. -/
inductive BResult (α : Type) where
  | ok (rest : BitState) (val : α)
  | err

/-- A bit-level parser (core/parse.rs BitParsable is implemented through nom
bits::complete::take for every narrow width). -/
def BitParse (α : Type) : Type := BitState → BResult α

def BitParse.pure (a : α) : BitParse α := fun s => .ok s a

def BitParse.bind (p : BitParse α) (f : α → BitParse β) : BitParse β := fun s =>
  match p s with
  | .ok s2 v => f v s2
  | .err => .err

instance : Monad BitParse where
  pure := BitParse.pure
  bind := BitParse.bind

theorem bbindDef {α β : Type} :
    (Bind.bind : BitParse α → (α → BitParse β) → BitParse β) = BitParse.bind := rfl

/-- Embedding of nom bits::complete::take(count): fails when fewer than count
bits remain, otherwise yields the next count bits MSB-first and advances the
cursor by whole bytes plus a sub-byte offset. -/
def takeBits (count : Nat) : BitParse Nat := fun s =>
  match s with
  | (bs, off) =>
    if bs.length * 8 < off + count then .err
    else
      .ok (bs.drop ((off + count) / 8), (off + count) % 8)
        (natFromBits (((bs.flatMap byteBits).drop off).take count))

/-- Embedding of the nom bits(...) combinator: run the bit parser from offset
zero; on success return to byte level, discarding any partially consumed byte
(the byte cursor is rounded up to the next byte boundary).  There is no
alignment check and no alignment error. -/
def bits (p : BitParse α) : Parse α := fun i =>
  match p (i, 0) with
  | .ok (bs, off) v =>
      .ok (bs.drop (off / 8 + (if off % 8 = 0 then 0 else 1))) v
  | .err => .err

/-- Embedding of nom multi::many0: repeat p until it fails; succeeding
without consuming input is an error (nom ErrorKind::Many0).  The fuel
argument bounds the iteration count; it is initialised with more fuel than
any consuming parser can use, so it never runs out. -/
def many0Go (p : Parse α) : Nat → List Nat → List α → PResult (List α)
  | 0, _, _ => .err
  | fuel + 1, i, acc =>
    match p i with
    | .err => .ok i acc.reverse
    | .panicked => .panicked
    | .ok i2 v =>
      if i2 = i then .err
      else many0Go p fuel i2 (v :: acc)

def many0 (p : Parse α) : Parse (List α) := fun i =>
  many0Go p (i.length + 1) i []

/-- Wrapping subtraction on u8, the release-mode semantics of the Rust
expression a - b on u8 operands (used by the element parsers with b = 3 or
b = 7). -/
def u8sub (a b : Nat) : Nat := (a + 256 - b % 256) % 256

/-- Wrapping subtraction on usize (64-bit), the release-mode semantics of
i.len() - SEQ_CONTROL_SIZE; an underflow produces a huge count which makes
the following take fail. -/
def usizeSub (a b : Nat) : Nat := (a + 2 ^ 64 - b % 2 ^ 64) % 2 ^ 64

/-- Validity of a byte sequence as UTF-8, as checked by Rust
std::str::from_utf8 (used where the Rust code calls expect on the
conversion, turning invalid input into a panic). -/
def utf8Valid : List Nat → Bool
  | [] => true
  | b :: rest =>
    if b < 0x80 then utf8Valid rest
    else if 0xC2 ≤ b ∧ b ≤ 0xDF then
      match rest with
      | c :: r2 => decide (0x80 ≤ c ∧ c ≤ 0xBF) && utf8Valid r2
      | [] => false
    else if b = 0xE0 then
      match rest with
      | c :: d :: r2 =>
          decide (0xA0 ≤ c ∧ c ≤ 0xBF) && decide (0x80 ≤ d ∧ d ≤ 0xBF) &&
            utf8Valid r2
      | _ => false
    else if 0xE1 ≤ b ∧ b ≤ 0xEF ∧ b ≠ 0xED then
      match rest with
      | c :: d :: r2 =>
          decide (0x80 ≤ c ∧ c ≤ 0xBF) && decide (0x80 ≤ d ∧ d ≤ 0xBF) &&
            utf8Valid r2
      | _ => false
    else if b = 0xED then
      match rest with
      | c :: d :: r2 =>
          decide (0x80 ≤ c ∧ c ≤ 0x9F) && decide (0x80 ≤ d ∧ d ≤ 0xBF) &&
            utf8Valid r2
      | _ => false
    else if b = 0xF0 then
      match rest with
      | c :: d :: e :: r2 =>
          decide (0x90 ≤ c ∧ c ≤ 0xBF) && decide (0x80 ≤ d ∧ d ≤ 0xBF) &&
            decide (0x80 ≤ e ∧ e ≤ 0xBF) && utf8Valid r2
      | _ => false
    else if 0xF1 ≤ b ∧ b ≤ 0xF3 then
      match rest with
      | c :: d :: e :: r2 =>
          decide (0x80 ≤ c ∧ c ≤ 0xBF) && decide (0x80 ≤ d ∧ d ≤ 0xBF) &&
            decide (0x80 ≤ e ∧ e ≤ 0xBF) && utf8Valid r2
      | _ => false
    else if b = 0xF4 then
      match rest with
      | c :: d :: e :: r2 =>
          decide (0x80 ≤ c ∧ c ≤ 0x8F) && decide (0x80 ≤ d ∧ d ≤ 0xBF) &&
            decide (0x80 ≤ e ∧ e ≤ 0xBF) && utf8Valid r2
      | _ => false
    else false

/-- Blob (core/blob.rs): an owned copy of a byte slice. -/
abbrev Blob : Type := List Nat

namespace Icmp

/-- layer3/icmp DestinationUnreachable. -/
inductive DestinationUnreachable where
  | HostUnreachable
  | Other (code : Nat)
deriving Repr, DecidableEq

/-- From u8 for DestinationUnreachable. -/
def DestinationUnreachable.fromU8 (x : Nat) : DestinationUnreachable :=
  match x with
  | 1 => .HostUnreachable
  | x => .Other x

/-- layer3/icmp TimeExceeded. -/
inductive TimeExceeded where
  | TTLExpired
  | Other (code : Nat)
deriving Repr, DecidableEq

/-- From u8 for TimeExceeded. -/
def TimeExceeded.fromU8 (x : Nat) : TimeExceeded :=
  match x with
  | 0 => .TTLExpired
  | x => .Other x

/-- layer3/icmp Type (named Typ here because Type is a Lean keyword). -/
inductive Typ where
  | EchoReply
  | DestinationUnreachable (sub : DestinationUnreachable)
  | EchoRequest
  | TimeExceeded (sub : TimeExceeded)
  | Other (typ code : Nat)
deriving Repr, DecidableEq

/-- From (u8, u8) for Type. -/
def Typ.fromPair (typ code : Nat) : Typ :=
  match typ with
  | 0 => .EchoReply
  | 3 => .DestinationUnreachable (DestinationUnreachable.fromU8 code)
  | 8 => .EchoRequest
  | 11 => .TimeExceeded (TimeExceeded.fromU8 code)
  | _ => .Other typ code

/-- layer3/icmp Echo. -/
structure Echo where
  identifier : Nat
  sequence_number : Nat
deriving Repr, DecidableEq

/-- Echo::parse. -/
def Echo.parse : Parse Echo := do
  let identifier ← beU16
  let sequence_number ← beU16
  pure { identifier := identifier, sequence_number := sequence_number }

/-- layer3/icmp Header. -/
inductive Header where
  | EchoRequest (e : Echo)
  | EchoReply (e : Echo)
  | Other (v : Nat)
deriving Repr, DecidableEq

/-- layer3/icmp Packet. -/
structure Packet where
  typ : Typ
  checksum : Nat
  header : Header
  payload : Blob
deriving Repr, DecidableEq

/-- Packet::parse (icmp.rs): type and code bytes, checksum, a 4-byte header
whose shape depends on the type, then the remainder as payload; the
remainder is not consumed. -/
def Packet.parse : Parse Packet := do
  let typ ← do
    let t ← beU8
    let c ← beU8
    pure (Typ.fromPair t c)
  let checksum ← beU16
  let header ←
    match typ with
    | .EchoRequest => do
        let e ← Echo.parse
        pure (Header.EchoRequest e)
    | .EchoReply => do
        let e ← Echo.parse
        pure (Header.EchoReply e)
    | _ => do
        let v ← beU32
        pure (Header.Other v)
  let payload ← getInput
  pure { typ := typ, checksum := checksum, header := header, payload := payload }

end Icmp

namespace Udp

/-- layer3/ip/udp.rs Datagram. -/
structure Datagram where
  src_port : Nat
  dst_port : Nat
  len : Nat
  checksum : Nat
  payload : Blob
deriving Repr, DecidableEq

/-- Datagram::parse: four big-endian u16 fields, then the whole remaining
input is copied into payload; the remaining input is returned unchanged. -/
def Datagram.parse : Parse Datagram := do
  let src_port ← beU16
  let dst_port ← beU16
  let len ← beU16
  let checksum ← beU16
  let payload ← getInput
  pure { src_port := src_port, dst_port := dst_port, len := len,
         checksum := checksum, payload := payload }

end Udp

namespace Tcp

/-- layer3/ip/tcp.rs DataOptions. -/
structure DataOptions where
  kind : Nat
  len : Nat
  data : Blob
deriving Repr, DecidableEq

/-- DataOptions::parse: kind byte, length byte, then take(len) bytes of
option data (the length field is not reduced by the two header bytes). -/
def DataOptions.parse : Parse DataOptions := do
  let kind ← beU8
  let len ← beU8
  let data ← takeN len
  pure { kind := kind, len := len, data := data }

/-- layer3/ip/tcp.rs NoData. -/
structure NoData where
  kind : Nat
deriving Repr, DecidableEq

/-- NoData::parse. -/
def NoData.parse : Parse NoData := do
  let kind ← beU8
  pure { kind := kind }

/-- layer3/ip/tcp.rs Options. -/
inductive Options where
  | Data (o : DataOptions)
  | NoData (o : NoData)
  | Empty
deriving Repr, DecidableEq

/-- layer3/ip/tcp.rs Packet. -/
structure Packet where
  src_port : Nat
  dst_port : Nat
  seq_num : Nat
  ack_num : Nat
  offset : Nat
  reserved : Nat
  ns : Nat
  cwr : Nat
  ece : Nat
  urg : Nat
  ack : Nat
  psh : Nat
  rst : Nat
  syn : Nat
  fin : Nat
  window_size : Nat
  checksum : Nat
  urgent_ptr : Nat
  options : Options
  payload : Blob
deriving Repr, DecidableEq

/-- Packet::get_options: when data offset exceeds 5 the first option byte is
read with an unchecked index i[0], which panics on empty input; 0x00 and
0x01 select the NoData shape, anything else the Data shape. -/
def Packet.getOpts (offset : Nat) : Parse Options := fun i =>
  if 5 < offset then
    match i with
    | [] => .panicked
    | b :: _ =>
      if b = 0x00 ∨ b = 0x01 then
        (do let o ← NoData.parse; Parse.pure (Options.NoData o)) i
      else
        (do let o ← DataOptions.parse; Parse.pure (Options.Data o)) i
  else .ok i .Empty

/-- Packet::parse: fixed 20-byte header (ports, seq, ack, a 16-bit bit-field
group, window, checksum, urgent pointer), then get_options, then the rest of
the slice as payload (returned unchanged as remaining input). -/
def Packet.parse : Parse Packet := do
  let src_port ← beU16
  let dst_port ← beU16
  let seq_num ← beU32
  let ack_num ← beU32
  let fields ← bits (do
    let offset ← takeBits 4
    let reserved ← takeBits 3
    let ns ← takeBits 1
    let cwr ← takeBits 1
    let ece ← takeBits 1
    let urg ← takeBits 1
    let ack ← takeBits 1
    let psh ← takeBits 1
    let rst ← takeBits 1
    let syn ← takeBits 1
    let fin ← takeBits 1
    BitParse.pure (offset, reserved, ns, cwr, ece, urg, ack, psh, rst, syn, fin))
  match fields with
  | (offset, reserved, ns, cwr, ece, urg, ack, psh, rst, syn, fin) => do
    let window_size ← beU16
    let checksum ← beU16
    let urgent_ptr ← beU16
    let options ← Packet.getOpts offset
    let payload ← getInput
    pure { src_port := src_port, dst_port := dst_port, seq_num := seq_num,
           ack_num := ack_num, offset := offset, reserved := reserved,
           ns := ns, cwr := cwr, ece := ece, urg := urg, ack := ack,
           psh := psh, rst := rst, syn := syn, fin := fin,
           window_size := window_size, checksum := checksum,
           urgent_ptr := urgent_ptr, options := options, payload := payload }

end Tcp

namespace Ip

/-- layer3/ip/ip.rs Protocol. -/
inductive Protocol where
  | ICMP
  | TCP
  | UDP
  | Unknown
deriving Repr, DecidableEq

/-- Protocol::parse: one byte; 1, 6 and 17 map to the named protocols and
every other value (including the declared discriminant 100) collapses to
Unknown; the result is always Some. -/
def Protocol.parse : Parse (Option Protocol) := do
  let b ← beU8
  pure (some (match b with
    | 1 => Protocol.ICMP
    | 6 => Protocol.TCP
    | 17 => Protocol.UDP
    | _ => Protocol.Unknown))

/-- layer3/ip/ip.rs Payload (the layer-4 payload of an IP packet). -/
inductive Payload where
  | UDP (d : Udp.Datagram)
  | TCP (p : Tcp.Packet)
  | ICMP (p : Icmp.Packet)
  | Unknown
deriving Repr, DecidableEq

end Ip

namespace Ipv4

/-- layer3/ip/ipv4.rs Addr: four raw bytes. -/
abbrev Addr : Type := List Nat

/-- Addr::parse: take(4). -/
def Addr.parse : Parse Addr := do
  let s ← takeN 4
  pure s

/-- layer3/ip/ipv4.rs Packet. -/
structure Packet where
  version : Nat
  ihl : Nat
  dscp : Nat
  ecn : Nat
  length : Nat
  identification : Nat
  flags : Nat
  fragment_offset : Nat
  ttl : Nat
  src : Addr
  dst : Addr
  checksum : Nat
  protocol : Option Ip.Protocol
  payload : Ip.Payload
deriving Repr, DecidableEq

/-- Packet::parse: bit-field pairs for version/ihl, dscp/ecn and
flags/fragment-offset, scalar header fields, then dispatch on the protocol
tag into TCP, UDP or ICMP (anything else leaves the payload Unknown without
consuming input).  Note that ihl > 5 option bytes are not skipped. -/
def Packet.parse : Parse Packet := do
  let vi ← bits (do
    let v ← takeBits 4
    let ihl ← takeBits 4
    BitParse.pure (v, ihl))
  let de ← bits (do
    let d ← takeBits 6
    let e ← takeBits 2
    BitParse.pure (d, e))
  let length ← beU16
  let identification ← beU16
  let ff ← bits (do
    let f ← takeBits 3
    let fo ← takeBits 13
    BitParse.pure (f, fo))
  let ttl ← beU8
  let protocol ← Ip.Protocol.parse
  let checksum ← beU16
  let src ← Addr.parse
  let dst ← Addr.parse
  let payload ←
    match protocol with
    | some Ip.Protocol.TCP => do
        let p ← Tcp.Packet.parse
        pure (Ip.Payload.TCP p)
    | some Ip.Protocol.UDP => do
        let d ← Udp.Datagram.parse
        pure (Ip.Payload.UDP d)
    | some Ip.Protocol.ICMP => do
        let p ← Icmp.Packet.parse
        pure (Ip.Payload.ICMP p)
    | _ => pure Ip.Payload.Unknown
  pure { version := vi.1, ihl := vi.2, dscp := de.1, ecn := de.2,
         length := length, identification := identification,
         flags := ff.1, fragment_offset := ff.2, ttl := ttl,
         src := src, dst := dst, checksum := checksum,
         protocol := protocol, payload := payload }

end Ipv4

namespace Ipv6

/-- ipv6.rs Addr: sixteen raw bytes. -/
abbrev Addr : Type := List Nat

/-- Addr::parse: take(16). -/
def Addr.parse : Parse Addr := do
  let s ← takeN 16
  pure s

/-- ipv6.rs Packet. -/
structure Packet where
  version : Nat
  traffic_class : Nat
  flow_label : Nat
  payload_len : Nat
  protocol : Option Ip.Protocol
  ttl : Nat
  src : Addr
  dst : Addr
  payload : Ip.Payload
deriving Repr, DecidableEq

/-- Packet::parse: a 32-bit bit-field group (version, traffic class, flow
label), payload length, protocol tag, hop limit, both addresses, then the
same layer-4 dispatch as IPv4. -/
def Packet.parse : Parse Packet := do
  let vtf ← bits (do
    let v ← takeBits 4
    let t ← takeBits 8
    let f ← takeBits 20
    BitParse.pure (v, t, f))
  let payload_len ← beU16
  let protocol ← Ip.Protocol.parse
  let ttl ← beU8
  let src ← Addr.parse
  let dst ← Addr.parse
  let payload ←
    match protocol with
    | some Ip.Protocol.TCP => do
        let p ← Tcp.Packet.parse
        pure (Ip.Payload.TCP p)
    | some Ip.Protocol.UDP => do
        let d ← Udp.Datagram.parse
        pure (Ip.Payload.UDP d)
    | some Ip.Protocol.ICMP => do
        let p ← Icmp.Packet.parse
        pure (Ip.Payload.ICMP p)
    | _ => pure Ip.Payload.Unknown
  pure { version := vtf.1, traffic_class := vtf.2.1, flow_label := vtf.2.2,
         payload_len := payload_len, protocol := protocol, ttl := ttl,
         src := src, dst := dst, payload := payload }

end Ipv6

namespace Datalink

/-- layer2/datalink.rs Addr: six raw bytes of a MAC address. -/
abbrev Addr : Type := List Nat

/-- Addr::parse: take(6). -/
def Addr.parse : Parse Addr := do
  let s ← takeN 6
  pure s

/-- layer2/datalink.rs EtherType. -/
inductive EtherType where
  | IPv4
  | IPv6
  | ARP
deriving Repr, DecidableEq

/-- TryFromPrimitive for EtherType: 0x0800, 0x86dd, 0x0806. -/
def EtherType.tryFrom (n : Nat) : Option EtherType :=
  if n = 0x0800 then some .IPv4
  else if n = 0x86dd then some .IPv6
  else if n = 0x0806 then some .ARP
  else none

/-- EtherType::parse: big-endian u16 mapped through try_from; unknown values
yield None rather than failing. -/
def EtherType.parse : Parse (Option EtherType) := do
  let v ← beU16
  pure (EtherType.tryFrom v)

end Datalink

namespace Arp

/-- layer2/arp.rs Operation. -/
inductive Operation where
  | ARPRequest
  | ARPReply
  | RARPRequest
  | RARPReply
  | DRARPRequest
  | DRARPReply
  | DRARPError
  | InARPRequest
  | InARPReply
deriving Repr, DecidableEq

/-- TryFromPrimitive for Operation: discriminants 1 through 9. -/
def Operation.tryFrom (n : Nat) : Option Operation :=
  match n with
  | 1 => some .ARPRequest
  | 2 => some .ARPReply
  | 3 => some .RARPRequest
  | 4 => some .RARPReply
  | 5 => some .DRARPRequest
  | 6 => some .DRARPReply
  | 7 => some .DRARPError
  | 8 => some .InARPRequest
  | 9 => some .InARPReply
  | _ => none

/-- Operation::parse. -/
def Operation.parse : Parse (Option Operation) := do
  let v ← beU16
  pure (Operation.tryFrom v)

/-- layer2/arp.rs HardwareType. -/
inductive HardwareType where
  | Ethernet
  | IEEE_802_Networks
  | ARCNET
  | FrameRelay
  | AsyncTransferMode1
  | HDLC
  | FibreChannel
  | AsyncTransferMode2
  | SerialLine
deriving Repr, DecidableEq

/-- TryFromPrimitive for HardwareType: 1, 6, 7, 15, 16, 17, 18, 19, 20. -/
def HardwareType.tryFrom (n : Nat) : Option HardwareType :=
  match n with
  | 1 => some .Ethernet
  | 6 => some .IEEE_802_Networks
  | 7 => some .ARCNET
  | 15 => some .FrameRelay
  | 16 => some .AsyncTransferMode1
  | 17 => some .HDLC
  | 18 => some .FibreChannel
  | 19 => some .AsyncTransferMode2
  | 20 => some .SerialLine
  | _ => none

/-- HardwareType::parse. -/
def HardwareType.parse : Parse (Option HardwareType) := do
  let v ← beU16
  pure (HardwareType.tryFrom v)

/-- layer2/arp.rs Packet. -/
structure Packet where
  htype : Option HardwareType
  ptype : Option Datalink.EtherType
  hlen : Nat
  plen : Nat
  operation : Option Operation
  sender_hw_addr : Datalink.Addr
  sender_ip_addr : Ipv4.Addr
  target_hw_addr : Datalink.Addr
  target_ip_addr : Ipv4.Addr
deriving Repr, DecidableEq

/-- Packet::parse: hardware and protocol types, lengths, operation, then the
sender and target (MAC, IPv4) pairs. -/
def Packet.parse : Parse Packet := do
  let htype ← HardwareType.parse
  let ptype ← Datalink.EtherType.parse
  let hlen ← beU8
  let plen ← beU8
  let operation ← Operation.parse
  let sender_hw_addr ← Datalink.Addr.parse
  let sender_ip_addr ← Ipv4.Addr.parse
  let target_hw_addr ← Datalink.Addr.parse
  let target_ip_addr ← Ipv4.Addr.parse
  pure { htype := htype, ptype := ptype, hlen := hlen, plen := plen,
         operation := operation, sender_hw_addr := sender_hw_addr,
         sender_ip_addr := sender_ip_addr, target_hw_addr := target_hw_addr,
         target_ip_addr := target_ip_addr }

end Arp

namespace Datalink

/-- layer2/datalink.rs Payload (the layer-3 payload of an Ethernet frame). -/
inductive Payload where
  | IPv4 (p : Ipv4.Packet)
  | IPv6 (p : Ipv6.Packet)
  | ARP (p : Arp.Packet)
  | Unknown
deriving Repr, DecidableEq

end Datalink

namespace Ethernet

/-- layer2/ethernet.rs Frame. -/
structure Frame where
  dst : Datalink.Addr
  src : Datalink.Addr
  ether_type : Option Datalink.EtherType
  payload : Option Datalink.Payload
deriving Repr, DecidableEq

/-- Frame::parse: destination and source MAC addresses, the EtherType, then
dispatch on the decoded tag: IPv4, IPv6 and ARP recurse into the matching
decoder, a None tag leaves the payload Unknown and the remaining input
untouched. -/
def Frame.parse : Parse Frame := do
  let dst ← Datalink.Addr.parse
  let src ← Datalink.Addr.parse
  let ether_type ← Datalink.EtherType.parse
  let payload ←
    match ether_type with
    | some Datalink.EtherType.IPv4 => do
        let p ← Ipv4.Packet.parse
        pure (Datalink.Payload.IPv4 p)
    | some Datalink.EtherType.IPv6 => do
        let p ← Ipv6.Packet.parse
        pure (Datalink.Payload.IPv6 p)
    | some Datalink.EtherType.ARP => do
        let p ← Arp.Packet.parse
        pure (Datalink.Payload.ARP p)
    | none => pure Datalink.Payload.Unknown
  pure { dst := dst, src := src, ether_type := ether_type,
         payload := some payload }

end Ethernet

namespace RadioTap

/-- layer2/wifi/radiotap.rs RadioTapHeader. -/
structure RadioTapHeader where
  it_version : Nat
  it_pad : Nat
  it_len : Nat
  it_present : Nat
deriving Repr, DecidableEq

/-- RadioTapHeader::parse: version, pad, little-endian length and presence
mask (the cursor after the presence word is discarded), then the remaining
input is recomputed as take(it_len) applied to the original input, so
exactly it_len bytes are consumed. -/
def RadioTapHeader.parse : Parse RadioTapHeader := do
  let original ← getInput
  let it_version ← beU8
  let it_pad ← beU8
  let it_len ← leU16
  let it_present ← peek leU32
  setInput original
  let _ ← takeN it_len
  pure { it_version := it_version, it_pad := it_pad, it_len := it_len,
         it_present := it_present }

end RadioTap

/-- Runs p on the byte list j for its value only, keeping the current input,
mirroring the Rust pattern: let (_, res) = p(new_i)? -/
def runOn (j : List Nat) (p : Parse α) : Parse α := fun i =>
  match p j with
  | .ok _ v => .ok i v
  | .err => .err
  | .panicked => .panicked

namespace Dot11

/-- layer2/wifi/dot11.rs SEQ_CONTROL_SIZE (also defined in management.rs);
despite the name it is used as the byte size of the trailing FCS region. -/
def SEQ_CONTROL_SIZE : Nat := 4

/-- layer2/wifi/dot11.rs Type (named Dot11Type because Type is a Lean
keyword). -/
inductive Dot11Type where
  | Management
  | Control
  | Data
  | Extension
deriving Repr, DecidableEq

/-- From u2 for Type: 0 Management, 1 Control, 2 Data, else Extension. -/
def Dot11Type.fromU2 (i : Nat) : Dot11Type :=
  match i with
  | 0 => .Management
  | 1 => .Control
  | 2 => .Data
  | _ => .Extension

/-- layer2/wifi/dot11.rs Subtype (named Dot11Subtype to avoid Lean
Subtype). -/
inductive Dot11Subtype where
  | AssociationRequest
  | AssociationResponse
  | ReassociationRequest
  | ReassociationResponse
  | ProbeRequest
  | ProbeResponse
  | TimingAdvertisement
  | Reserved1
  | Beacon
  | ATIM
  | Disassociation
  | Authentication
  | Deauthentication
  | Action
  | NACK
  | Reserved2
  | Reserved3
  | Trigger
  | BeamformingReportPoll
  | VHT_OR_HE_NDP_Announcement
  | ControlFrameExtension
  | ControlWrapper
  | BAR
  | BA
  | PSPoll
  | RequestToSend
  | ClearToSend
  | ACK
  | CFEnd
  | CFEnd_And_CFAck
  | Data
  | Data_And_CFAck
  | Data_And_CFPoll
  | Data_And_CFAck_And_CFPoll
  | Null
  | CFAck_NoData
  | CFPoll_NoData
  | CFAck_And_CFPoll_NoData
  | QoSData
  | QoSData_And_CFAck
  | QoSData_And_CFPoll
  | QoSData_And_CFAck_And_CFPoll
  | QoSNull
  | Reserved4
  | QoS_CFPoll
  | QoS_CFAck_And_CFPoll
  | DMGBeacon
  | Reserved5
  | Unknown
deriving Repr, DecidableEq

/-- Subtype::from_type: the guard table of dot11.rs; note that a Control
frame with subtype 3 matches no guard and falls through to Unknown, and a
nonzero Extension subtype is Reserved5. -/
def Dot11Subtype.fromType (typ : Dot11Type) (i : Nat) : Dot11Subtype :=
  match typ, i with
  | .Management, 0x0 => .AssociationRequest
  | .Management, 0x1 => .AssociationResponse
  | .Management, 0x2 => .ReassociationRequest
  | .Management, 0x3 => .ReassociationResponse
  | .Management, 0x4 => .ProbeRequest
  | .Management, 0x5 => .ProbeResponse
  | .Management, 0x6 => .TimingAdvertisement
  | .Management, 0x7 => .Reserved1
  | .Management, 0x8 => .Beacon
  | .Management, 0x9 => .ATIM
  | .Management, 0xA => .Disassociation
  | .Management, 0xB => .Authentication
  | .Management, 0xC => .Deauthentication
  | .Management, 0xD => .Action
  | .Management, 0xE => .NACK
  | .Management, 0xF => .Reserved2
  | .Control, 0x0 => .Reserved3
  | .Control, 0x1 => .Reserved3
  | .Control, 0x2 => .Trigger
  | .Control, 0x4 => .BeamformingReportPoll
  | .Control, 0x5 => .VHT_OR_HE_NDP_Announcement
  | .Control, 0x6 => .ControlFrameExtension
  | .Control, 0x7 => .ControlWrapper
  | .Control, 0x8 => .BAR
  | .Control, 0x9 => .BA
  | .Control, 0xA => .PSPoll
  | .Control, 0xB => .RequestToSend
  | .Control, 0xC => .ClearToSend
  | .Control, 0xD => .ACK
  | .Control, 0xE => .CFEnd
  | .Control, 0xF => .CFEnd_And_CFAck
  | .Data, 0x0 => .Data
  | .Data, 0x1 => .Data_And_CFAck
  | .Data, 0x2 => .Data_And_CFPoll
  | .Data, 0x3 => .Data_And_CFAck_And_CFPoll
  | .Data, 0x4 => .Null
  | .Data, 0x5 => .CFAck_NoData
  | .Data, 0x6 => .CFPoll_NoData
  | .Data, 0x7 => .CFAck_And_CFPoll_NoData
  | .Data, 0x8 => .QoSData
  | .Data, 0x9 => .QoSData_And_CFAck
  | .Data, 0xA => .QoSData_And_CFPoll
  | .Data, 0xB => .QoSData_And_CFAck_And_CFPoll
  | .Data, 0xC => .QoSNull
  | .Data, 0xD => .Reserved4
  | .Data, 0xE => .QoS_CFPoll
  | .Data, 0xF => .QoS_CFAck_And_CFPoll
  | .Extension, 0x0 => .DMGBeacon
  | .Extension, _ + 1 => .Reserved5
  | _, _ => .Unknown

/-- layer2/wifi/dot11.rs ControlFlags.  The Rust field named protected is
called protected_flag here because protected is a Lean keyword. -/
structure ControlFlags where
  to_ds : Nat
  from_ds : Nat
  more_fragments : Nat
  retry : Nat
  power_mgmt : Nat
  more_data : Nat
  protected_flag : Nat
  order : Nat
deriving Repr, DecidableEq

/-- ControlFlags::parse: eight single bits of the second Frame Control byte,
MSB first: order, protected, more_data, power_mgmt, retry, more_fragments,
from_ds, to_ds. -/
def ControlFlags.parse : Parse ControlFlags := do
  let v ← bits (do
    let order ← takeBits 1
    let prot ← takeBits 1
    let more_data ← takeBits 1
    let power_mgmt ← takeBits 1
    let retry ← takeBits 1
    let more_fragments ← takeBits 1
    let from_ds ← takeBits 1
    let to_ds ← takeBits 1
    BitParse.pure (order, prot, more_data, power_mgmt, retry, more_fragments,
      from_ds, to_ds))
  match v with
  | (order, prot, more_data, power_mgmt, retry, more_fragments, from_ds,
     to_ds) =>
    pure { to_ds := to_ds, from_ds := from_ds,
           more_fragments := more_fragments, retry := retry,
           power_mgmt := power_mgmt, more_data := more_data,
           protected_flag := prot, order := order }

/-- layer2/wifi/dot11.rs FrameControl. -/
structure FrameControl where
  version : Nat
  typ : Dot11Type
  subtype : Dot11Subtype
  flags : ControlFlags
deriving Repr, DecidableEq

/-- FrameControl::parse: first byte MSB-first as subtype(4), type(2),
version(2), then the flags byte. -/
def FrameControl.parse : Parse FrameControl := do
  let stv ← bits (do
    let subtype ← takeBits 4
    let typ ← takeBits 2
    let version ← takeBits 2
    BitParse.pure (subtype, typ, version))
  let flags ← ControlFlags.parse
  let typ := Dot11Type.fromU2 stv.2.1
  let subtype := Dot11Subtype.fromType typ stv.1
  pure { version := stv.2.2, typ := typ, subtype := subtype, flags := flags }

/-- layer2/wifi/dot11.rs SeqControl. -/
structure SeqControl where
  frag_num : Nat
  seq_num : Nat
deriving Repr, DecidableEq

/-- SeqControl::parse: a 16-bit MSB-first bit-field group, 4 bits of
fragment number then 12 bits of sequence number; the two bytes are not
byte-swapped before the split. -/
def SeqControl.parse : Parse SeqControl := do
  let v ← bits (do
    let frag ← takeBits 4
    let seq ← takeBits 12
    BitParse.pure (frag, seq))
  pure { frag_num := v.1, seq_num := v.2 }

/-- layer2/wifi/dot11.rs Dot11Addr: a MAC address tagged with its role. -/
inductive Dot11Addr where
  | DestinationAddress (a : Datalink.Addr)
  | ReceiverAddress (a : Datalink.Addr)
  | SourceAddress (a : Datalink.Addr)
  | TransmitterAddress (a : Datalink.Addr)
  | BSSID (a : Datalink.Addr)
deriving Repr, DecidableEq

end Dot11

namespace Management

/-- layer2/wifi/management.rs ReasonCode rendering: the strum display string
of each try_from-reachable discriminant (0 through 23); none for every other
value. -/
def reasonCodeString (n : Nat) : Option String :=
  match n with
  | 0 => some "Reserved; unused"
  | 1 => some "Unspecified reason code"
  | 2 => some "Prior authentication is not valid"
  | 3 => some "Station has left the basic service area or extended service area and is deauthenticated"
  | 4 => some "Inactivity timer expired and station was disassociated"
  | 5 => some "Disassociated due to insufficient resources at the access point"
  | 6 => some "Incorrect frame type or subtype received from unauthenticated station"
  | 7 => some "Station has left the basic service area or extended service area and is disassociated"
  | 8 => some "Disassociated because of unacceptable values in Power Capability element"
  | 9 => some "Disassociated because of unacceptable values in Supported Channels element"
  | 10 => some "Reserved"
  | 11 => some "Invalid information element (added with 802.11i, and likely one of the 802.11i information elements)"
  | 12 => some "Message integrity check failure"
  | 13 => some "4-way keying handshake timeout"
  | 14 => some "Group key handshake timeout"
  | 15 => some "4-way handshake information element has different security parameters from initial parameter set"
  | 16 => some "Invalid group cipher"
  | 17 => some "Invalid pairwise cipher"
  | 18 => some "Invalid Authentication and Key Management Protocol"
  | 19 => some "Unsupported Robust Security Network Information Element (RSN IE) version"
  | 20 => some "Invalid capabilities in RSN information element"
  | 21 => some "802.1X authentication failure"
  | 22 => some "Proposed cipher suite rejected due to configured policy"
  | 23 => some "Reserved; unused"
  | _ => none

/-- ReasonCode::parse: little-endian u16 mapped through try_from and
rendered; unknown values become a fixed fallback string. -/
def reasonCodeParse : Parse String := do
  let v ← leU16
  pure (match reasonCodeString v with
    | some s => s
    | none => "Unknown reason code")

/-- layer2/wifi/management.rs StatusCode rendering: discriminants 0, 1, 2
and 10 through 35. -/
def statusCodeString (n : Nat) : Option String :=
  match n with
  | 0 => some "Operation completed successfully"
  | 1 => some "Unspecified failure"
  | 2 => some "Reserved; unused"
  | 10 => some "Requested capability set is too broad and cannot be supported"
  | 11 => some "Reassociation denied; prior association cannot be identified and transferred"
  | 12 => some "Association denied for a reason not specified in the 802.11 standard"
  | 13 => some "Requested authentication algorithm not supported"
  | 14 => some "Unexpected authentication sequence number"
  | 15 => some "Authentication rejected; the response to the challenge failed"
  | 16 => some "Authentication rejected; the next frame in the sequence did not arrive in the expected window"
  | 17 => some "Association denied; the access point is resource-constrained"
  | 18 => some "Association denied; the mobile station does not support all of the data rates required by the BSS"
  | 19 => some "Association denied; the mobile station does not support the Short Preamble option"
  | 20 => some "Association denied; the mobile station does not support the PBCC modulation option"
  | 21 => some "Association denied; the mobile station does not support the Channel Agility option"
  | 22 => some "Association denied; Spectrum Management is required"
  | 23 => some "Association denied; Power Capability value is not acceptable"
  | 24 => some "Association denied; Supported Channels is not acceptable"
  | 25 => some "Association denied; the mobile station does not support the Short Slot Time"
  | 26 => some "Association denied; the mobile station does not support DSSS-OFDM"
  | 27 => some "Reserved"
  | 28 => some "Information element not valid"
  | 29 => some "Group (broadcast/multicast) cipher not valid"
  | 30 => some "Pairwise (unicast) cipher not valid"
  | 31 => some "Authentication and Key Management Protocol (AKMP) not valid"
  | 32 => some "Robust Security Network information element (RSN IE) version is not supported"
  | 33 => some "RSN IE capabilites are not supported"
  | 34 => some "Cipher suite rejected due to policy"
  | 35 => some "Reserved for future standardization work"
  | _ => none

/-- StatusCode::parse. -/
def statusCodeParse : Parse String := do
  let v ← leU16
  pure (match statusCodeString v with
    | some s => s
    | none => "Unknown status code")

/-- layer2/wifi/management.rs CapabilityInfo. -/
structure CapabilityInfo where
  ess : Nat
  ibss : Nat
  cf_pollable : Nat
  cf_poll_request : Nat
  privacy : Nat
  short_preamble : Nat
  pbcc : Nat
  channel_agility : Nat
  short_slot_time : Nat
  dsss_ofdm : Nat
deriving Repr, DecidableEq

/-- CapabilityInfo::parse: two MSB-first bit-field groups of eight single
bits; in the second byte only the third and sixth bits are kept. -/
def CapabilityInfo.parse : Parse CapabilityInfo := do
  let a ← bits (do
    let ess ← takeBits 1
    let ibss ← takeBits 1
    let cf_pollable ← takeBits 1
    let cf_poll_request ← takeBits 1
    let privacy ← takeBits 1
    let short_preamble ← takeBits 1
    let pbcc ← takeBits 1
    let channel_agility ← takeBits 1
    BitParse.pure (ess, ibss, cf_pollable, cf_poll_request, privacy,
      short_preamble, pbcc, channel_agility))
  let b ← bits (do
    let x1 ← takeBits 1
    let x2 ← takeBits 1
    let short_slot_time ← takeBits 1
    let x4 ← takeBits 1
    let x5 ← takeBits 1
    let dsss_ofdm ← takeBits 1
    let x7 ← takeBits 1
    let x8 ← takeBits 1
    BitParse.pure (x1, x2, short_slot_time, x4, x5, dsss_ofdm, x7, x8))
  match a, b with
  | (ess, ibss, cf_pollable, cf_poll_request, privacy, short_preamble, pbcc,
     channel_agility), (_, _, short_slot_time, _, _, dsss_ofdm, _, _) =>
    pure { ess := ess, ibss := ibss, cf_pollable := cf_pollable,
           cf_poll_request := cf_poll_request, privacy := privacy,
           short_preamble := short_preamble, pbcc := pbcc,
           channel_agility := channel_agility,
           short_slot_time := short_slot_time, dsss_ofdm := dsss_ofdm }

/-- layer2/wifi/management.rs AuthenticationAlgorithm. -/
inductive AuthenticationAlgorithm where
  | OpenSystemAuthentication
  | SharedKeyAuthentication
  | Reserved
deriving Repr, DecidableEq

/-- AuthenticationAlgorithm::parse: little-endian u16 through try_from on
discriminants 0, 1, 2. -/
def AuthenticationAlgorithm.parse : Parse (Option AuthenticationAlgorithm) := do
  let v ← leU16
  pure (match v with
    | 0 => some .OpenSystemAuthentication
    | 1 => some .SharedKeyAuthentication
    | 2 => some .Reserved
    | _ => none)

/-- layer2/wifi/management.rs CommonFieldsElement. -/
structure CommonFieldsElement where
  id : Nat
  len : Nat
deriving Repr, DecidableEq

/-- layer2/wifi/management.rs UnknownElement. -/
structure UnknownElement where
  id : Nat
  len : Nat
deriving Repr, DecidableEq

/-- UnknownElement::parse: skip len bytes. -/
def UnknownElement.parse (id len : Nat) : Parse UnknownElement := do
  let _ ← takeN len
  pure { id := id, len := len }

/-- layer2/wifi/management.rs SSID.  The Rust field is a String produced
from the raw bytes with an "Invalid/Malformed SSID" fallback; the raw bytes
are stored here, which does not change parsing behaviour. -/
structure SSID where
  common : CommonFieldsElement
  ssid : List Nat
deriving Repr, DecidableEq

/-- SSID::parse: take(len) bytes of SSID. -/
def SSID.parse (id len : Nat) : Parse SSID := do
  let s ← takeN len
  pure { common := { id := id, len := len }, ssid := s }

/-- layer2/wifi/management.rs SupportedRate. -/
structure SupportedRate where
  label : Nat
  is_mandatory : Nat
deriving Repr, DecidableEq

/-- SupportedRate::parse: a 7-bit label and a 1-bit mandatory flag. -/
def SupportedRate.parse : Parse SupportedRate := do
  let v ← bits (do
    let label ← takeBits 7
    let m ← takeBits 1
    BitParse.pure (label, m))
  pure { label := v.1, is_mandatory := v.2 }

/-- layer2/wifi/management.rs SupportedRates. -/
structure SupportedRates where
  common : CommonFieldsElement
  supported_rates : List SupportedRate
deriving Repr, DecidableEq

/-- SupportedRates::parse: take(len) bytes and run many0 of SupportedRate
over them, discarding that window afterwards. -/
def SupportedRates.parse (id len : Nat) : Parse SupportedRates := do
  let window ← takeN len
  let rates ← runOn window (many0 SupportedRate.parse)
  pure { common := { id := id, len := len }, supported_rates := rates }

/-- layer2/wifi/management.rs FHParamSet. -/
structure FHParamSet where
  common : CommonFieldsElement
  dwell_time : Nat
  hop_set : Nat
  hop_pattern : Nat
  hop_index : Nat
deriving Repr, DecidableEq

/-- FHParamSet::parse. -/
def FHParamSet.parse (id len : Nat) : Parse FHParamSet := do
  let dwell_time ← leU16
  let hop_set ← beU8
  let hop_pattern ← beU8
  let hop_index ← beU8
  pure { common := { id := id, len := len }, dwell_time := dwell_time,
         hop_set := hop_set, hop_pattern := hop_pattern,
         hop_index := hop_index }

/-- layer2/wifi/management.rs DSParamSet. -/
structure DSParamSet where
  common : CommonFieldsElement
  current_channel : Nat
deriving Repr, DecidableEq

/-- DSParamSet::parse. -/
def DSParamSet.parse (id len : Nat) : Parse DSParamSet := do
  let c ← beU8
  pure { common := { id := id, len := len }, current_channel := c }

/-- layer2/wifi/management.rs IBSSParamSet. -/
structure IBSSParamSet where
  common : CommonFieldsElement
  atim_window : Nat
deriving Repr, DecidableEq

/-- IBSSParamSet::parse. -/
def IBSSParamSet.parse (id len : Nat) : Parse IBSSParamSet := do
  let w ← leU16
  pure { common := { id := id, len := len }, atim_window := w }

/-- layer2/wifi/management.rs CountryConstraintTriplet. -/
structure CountryConstraintTriplet where
  first_channel_num : Nat
  num_channels : Nat
  max_transmit_power : Nat
deriving Repr, DecidableEq

/-- CountryConstraintTriplet::parse. -/
def CountryConstraintTriplet.parse : Parse CountryConstraintTriplet := do
  let a ← beU8
  let b ← beU8
  let c ← beU8
  pure { first_channel_num := a, num_channels := b, max_transmit_power := c }

/-- layer2/wifi/management.rs Country.  The country string bytes are stored
raw; the Rust code converts them with expect, which panics on invalid
UTF-8, and that panic is modelled. -/
structure Country where
  common : CommonFieldsElement
  country_string : List Nat
  constraints : List CountryConstraintTriplet
deriving Repr, DecidableEq

/-- Country::parse: three country-string bytes (panicking on invalid UTF-8
as the Rust expect does), then take(len - 3) bytes of triplets, len - 3
computed with u8 wrapping. -/
def Country.parse (id len : Nat) : Parse Country := fun i =>
  (do
    let cs ← takeN 3
    if utf8Valid cs then do
      let window ← takeN (u8sub len 3)
      let cons ← runOn window (many0 CountryConstraintTriplet.parse)
      pure ({ common := { id := id, len := len }, country_string := cs,
              constraints := cons } : Country)
    else fun _ => .panicked) i

/-- layer2/wifi/management.rs TrafficIndicationMap. -/
structure TrafficIndicationMap where
  common : CommonFieldsElement
  dtim_count : Nat
  dtim_period : Nat
  bitmap_control : Nat
  partial_virtual_bitmap : List Nat
deriving Repr, DecidableEq

/-- TrafficIndicationMap::parse: three scalar bytes then take(len - 3) bytes
of bitmap, len - 3 computed with u8 wrapping. -/
def TrafficIndicationMap.parse (id len : Nat) : Parse TrafficIndicationMap := do
  let dtim_count ← beU8
  let dtim_period ← beU8
  let bitmap_control ← beU8
  let bitmap ← takeN (u8sub len 3)
  pure { common := { id := id, len := len }, dtim_count := dtim_count,
         dtim_period := dtim_period, bitmap_control := bitmap_control,
         partial_virtual_bitmap := bitmap }

/-- layer2/wifi/management.rs RequestElement. -/
structure RequestElement where
  common : CommonFieldsElement
  requested_elements : List Nat
deriving Repr, DecidableEq

/-- RequestElement::parse. -/
def RequestElement.parse (id len : Nat) : Parse RequestElement := do
  let s ← takeN len
  pure { common := { id := id, len := len }, requested_elements := s }

/-- layer2/wifi/management.rs ChallengeText; raw bytes stored, and the Rust
expect on UTF-8 conversion is modelled as a panic. -/
structure ChallengeText where
  common : CommonFieldsElement
  challenge_text : List Nat
deriving Repr, DecidableEq

/-- ChallengeText::parse. -/
def ChallengeText.parse (id len : Nat) : Parse ChallengeText := fun i =>
  (do
    let s ← takeN len
    if utf8Valid s then
      pure ({ common := { id := id, len := len }, challenge_text := s } :
        ChallengeText)
    else fun _ => .panicked) i

/-- layer2/wifi/management.rs PowerConstraint. -/
structure PowerConstraint where
  common : CommonFieldsElement
  local_power_constraint : Nat
deriving Repr, DecidableEq

/-- PowerConstraint::parse. -/
def PowerConstraint.parse (id len : Nat) : Parse PowerConstraint := do
  let v ← beU8
  pure { common := { id := id, len := len }, local_power_constraint := v }

/-- layer2/wifi/management.rs TPCReport. -/
structure TPCReport where
  common : CommonFieldsElement
  transmit_power : Nat
  link_margin : Nat
deriving Repr, DecidableEq

/-- TPCReport::parse. -/
def TPCReport.parse (id len : Nat) : Parse TPCReport := do
  let tp ← beU8
  let lm ← beU8
  pure { common := { id := id, len := len }, transmit_power := tp,
         link_margin := lm }

/-- layer2/wifi/management.rs SupportedChannelsElement. -/
structure SupportedChannelsElement where
  common : CommonFieldsElement
  first_channel : Nat
  num_channels : Nat
deriving Repr, DecidableEq

/-- SupportedChannelsElement::parse. -/
def SupportedChannelsElement.parse (id len : Nat) :
    Parse SupportedChannelsElement := do
  let fc ← beU8
  let nc ← beU8
  pure { common := { id := id, len := len }, first_channel := fc,
         num_channels := nc }

/-- layer2/wifi/management.rs ChannelSwitchAnnouncement. -/
structure ChannelSwitchAnnouncement where
  common : CommonFieldsElement
  channel_switch_mode : Nat
  new_channel_num : Nat
  channel_switch_count : Nat
deriving Repr, DecidableEq

/-- ChannelSwitchAnnouncement::parse. -/
def ChannelSwitchAnnouncement.parse (id len : Nat) :
    Parse ChannelSwitchAnnouncement := do
  let m ← beU8
  let n ← beU8
  let c ← beU8
  pure { common := { id := id, len := len }, channel_switch_mode := m,
         new_channel_num := n, channel_switch_count := c }

/-- layer2/wifi/management.rs QuietElement. -/
structure QuietElement where
  common : CommonFieldsElement
  quiet_count : Nat
  quiet_period : Nat
  quiet_duration : Nat
  quiet_offset : Nat
deriving Repr, DecidableEq

/-- QuietElement::parse. -/
def QuietElement.parse (id len : Nat) : Parse QuietElement := do
  let c ← beU8
  let p ← beU8
  let d ← leU16
  let o ← leU16
  pure { common := { id := id, len := len }, quiet_count := c,
         quiet_period := p, quiet_duration := d, quiet_offset := o }

/-- layer2/wifi/management.rs IBSSDFSChannelMap. -/
structure IBSSDFSChannelMap where
  bss : Nat
  ofdm_preamble : Nat
  unidentified : Nat
  radar : Nat
  unmeasured : Nat
deriving Repr, DecidableEq

/-- IBSSDFSChannelMap::parse: five single bits inside one bits(...) group;
the partially consumed byte is not re-entered. -/
def IBSSDFSChannelMap.parse : Parse IBSSDFSChannelMap := do
  let v ← bits (do
    let bss ← takeBits 1
    let ofdm ← takeBits 1
    let unid ← takeBits 1
    let radar ← takeBits 1
    let unm ← takeBits 1
    BitParse.pure (bss, ofdm, unid, radar, unm))
  match v with
  | (bss, ofdm, unid, radar, unm) =>
    pure { bss := bss, ofdm_preamble := ofdm, unidentified := unid,
           radar := radar, unmeasured := unm }

/-- layer2/wifi/management.rs IBSSDFSChannelTuple. -/
structure IBSSDFSChannelTuple where
  channel_num : Nat
  channel_map : IBSSDFSChannelMap
deriving Repr, DecidableEq

/-- IBSSDFSChannelTuple::parse. -/
def IBSSDFSChannelTuple.parse : Parse IBSSDFSChannelTuple := do
  let n ← beU8
  let m ← IBSSDFSChannelMap.parse
  pure { channel_num := n, channel_map := m }

/-- layer2/wifi/management.rs IBSSDFS. -/
structure IBSSDFS where
  common : CommonFieldsElement
  dfs_owner : Datalink.Addr
  dfs_recovery_interval : Nat
  channel_maps : List IBSSDFSChannelTuple
deriving Repr, DecidableEq

/-- IBSSDFS::parse: owner address, recovery interval, then take(len - 7)
bytes of channel tuples, len - 7 computed with u8 wrapping. -/
def IBSSDFS.parse (id len : Nat) : Parse IBSSDFS := do
  let owner ← Datalink.Addr.parse
  let ri ← beU8
  let window ← takeN (u8sub len 7)
  let maps ← runOn window (many0 IBSSDFSChannelTuple.parse)
  pure { common := { id := id, len := len }, dfs_owner := owner,
         dfs_recovery_interval := ri, channel_maps := maps }

/-- layer2/wifi/management.rs ERPInfo. -/
structure ERPInfo where
  common : CommonFieldsElement
  non_erp_present : Nat
  use_protection : Nat
  barker_preamble : Nat
deriving Repr, DecidableEq

/-- ERPInfo::parse: three single bits inside one bits(...) group; the
element length is not consulted and the rest of the byte is skipped. -/
def ERPInfo.parse (id len : Nat) : Parse ERPInfo := do
  let v ← bits (do
    let a ← takeBits 1
    let b ← takeBits 1
    let c ← takeBits 1
    BitParse.pure (a, b, c))
  pure { common := { id := id, len := len }, non_erp_present := v.1,
         use_protection := v.2.1, barker_preamble := v.2.2 }

/-- layer2/wifi/management.rs Element: the open information-element
enumeration.  Variants never produced by Element::parse (CFParamaterSet and
the other UnknownElement-shaped declarations) are kept for fidelity. -/
inductive Element where
  | SSID (e : SSID)
  | SupportedRates (e : SupportedRates)
  | FHParameterSet (e : FHParamSet)
  | DSParameterSet (e : DSParamSet)
  | CFParamaterSet (e : UnknownElement)
  | TrafficIndicationMap (e : TrafficIndicationMap)
  | IBSSParameterSet (e : IBSSParamSet)
  | Country (e : Country)
  | HoppingParamSet (e : UnknownElement)
  | HoppingPatternTable (e : UnknownElement)
  | Request (e : RequestElement)
  | ChallengeText (e : ChallengeText)
  | PowerConstraint (e : PowerConstraint)
  | PowerCapability (e : CommonFieldsElement)
  | TPCRequest (e : UnknownElement)
  | TPCReport (e : TPCReport)
  | SupportedChannels (e : SupportedChannelsElement)
  | ChannelSwitchAnnouncements (e : ChannelSwitchAnnouncement)
  | MeasurementRequest (e : UnknownElement)
  | MeasurementReport (e : UnknownElement)
  | Quiet (e : QuietElement)
  | IBSS_DFS (e : IBSSDFS)
  | ERPInfo (e : ERPInfo)
  | RobustSecurityInfo (e : UnknownElement)
  | ExtendedSupportedRates (e : UnknownElement)
  | WifiProtectedAccess (e : UnknownElement)
  | Unknown (e : UnknownElement)
deriving Repr, DecidableEq

/-- Element::parse: a one-byte id and one-byte length, then dispatch on the
id; every id without a dedicated arm (including 4, 8, 9, 33, 34, 38, 39,
48, 50 and 221) goes through the UnknownElement arm. -/
def Element.parse : Parse Element := do
  let id ← beU8
  let len ← beU8
  match id with
  | 0 => do
      let e ← SSID.parse id len
      pure (Element.SSID e)
  | 1 => do
      let e ← SupportedRates.parse id len
      pure (Element.SupportedRates e)
  | 2 => do
      let e ← FHParamSet.parse id len
      pure (Element.FHParameterSet e)
  | 3 => do
      let e ← DSParamSet.parse id len
      pure (Element.DSParameterSet e)
  | 5 => do
      let e ← TrafficIndicationMap.parse id len
      pure (Element.TrafficIndicationMap e)
  | 6 => do
      let e ← IBSSParamSet.parse id len
      pure (Element.IBSSParameterSet e)
  | 7 => do
      let e ← Country.parse id len
      pure (Element.Country e)
  | 10 => do
      let e ← RequestElement.parse id len
      pure (Element.Request e)
  | 16 => do
      let e ← ChallengeText.parse id len
      pure (Element.ChallengeText e)
  | 32 => do
      let e ← PowerConstraint.parse id len
      pure (Element.PowerConstraint e)
  | 35 => do
      let e ← TPCReport.parse id len
      pure (Element.TPCReport e)
  | 36 => do
      let e ← SupportedChannelsElement.parse id len
      pure (Element.SupportedChannels e)
  | 37 => do
      let e ← ChannelSwitchAnnouncement.parse id len
      pure (Element.ChannelSwitchAnnouncements e)
  | 40 => do
      let e ← QuietElement.parse id len
      pure (Element.Quiet e)
  | 41 => do
      let e ← IBSSDFS.parse id len
      pure (Element.IBSS_DFS e)
  | 42 => do
      let e ← ERPInfo.parse id len
      pure (Element.ERPInfo e)
  | _ => do
      let e ← UnknownElement.parse id len
      pure (Element.Unknown e)

/-- layer2/wifi/management.rs SEQ_CONTROL_SIZE, as in dot11.rs. -/
def SEQ_CONTROL_SIZE : Nat := 4

/-- Element::parse_optional_fields: take all bytes up to the final four
(reserved for the FCS; the subtraction wraps on usize, so fewer than four
remaining bytes make the take fail), run many0 of Element::parse over that
window, and resume after it. -/
def Element.parseOptionalFields : Parse (List Element) := do
  let cur ← getInput
  let window ← takeN (usizeSub cur.length SEQ_CONTROL_SIZE)
  let res ← runOn window (many0 Element.parse)
  pure res

/-- layer2/wifi/management.rs BeaconFrameBody. -/
structure BeaconFrameBody where
  timestamp : Nat
  beacon_interval : Nat
  capability_info : CapabilityInfo
  dynamic_fields : List Element
deriving Repr, DecidableEq

/-- BeaconFrameBody::parse. -/
def BeaconFrameBody.parse : Parse BeaconFrameBody := do
  let timestamp ← leU64
  let beacon_interval ← leU16
  let capability_info ← CapabilityInfo.parse
  let dynamic_fields ← Element.parseOptionalFields
  pure { timestamp := timestamp, beacon_interval := beacon_interval,
         capability_info := capability_info,
         dynamic_fields := dynamic_fields }

/-- layer2/wifi/management.rs ProbeRequestFrameBody. -/
structure ProbeRequestFrameBody where
  ssid : Element
  supported_rates : Element
  extended_support_rates : Element
deriving Repr, DecidableEq

/-- ProbeRequestFrameBody::parse: three consecutive elements. -/
def ProbeRequestFrameBody.parse : Parse ProbeRequestFrameBody := do
  let ssid ← Element.parse
  let supported_rates ← Element.parse
  let extended_support_rates ← Element.parse
  pure { ssid := ssid, supported_rates := supported_rates,
         extended_support_rates := extended_support_rates }

/-- layer2/wifi/management.rs ProbeResponseFrameBody. -/
structure ProbeResponseFrameBody where
  timestamp : Nat
  beacon_interval : Nat
  capability_info : CapabilityInfo
  dynamic_fields : List Element
deriving Repr, DecidableEq

/-- ProbeResponseFrameBody::parse. -/
def ProbeResponseFrameBody.parse : Parse ProbeResponseFrameBody := do
  let timestamp ← leU64
  let beacon_interval ← leU16
  let capability_info ← CapabilityInfo.parse
  let dynamic_fields ← Element.parseOptionalFields
  pure { timestamp := timestamp, beacon_interval := beacon_interval,
         capability_info := capability_info,
         dynamic_fields := dynamic_fields }

/-- layer2/wifi/management.rs AssociationRequestFrameBody. -/
structure AssociationRequestFrameBody where
  capability_info : CapabilityInfo
  listen_interval : Nat
  ssid : Element
  supported_rates : Element
deriving Repr, DecidableEq

/-- AssociationRequestFrameBody::parse. -/
def AssociationRequestFrameBody.parse : Parse AssociationRequestFrameBody := do
  let capability_info ← CapabilityInfo.parse
  let listen_interval ← leU16
  let ssid ← Element.parse
  let supported_rates ← Element.parse
  pure { capability_info := capability_info,
         listen_interval := listen_interval, ssid := ssid,
         supported_rates := supported_rates }

/-- layer2/wifi/management.rs ReassociationRequestFrameBody. -/
structure ReassociationRequestFrameBody where
  capability_info : CapabilityInfo
  listen_interval : Nat
  current_ap_address : Datalink.Addr
  ssid : Element
  supported_rates : Element
deriving Repr, DecidableEq

/-- ReassociationRequestFrameBody::parse. -/
def ReassociationRequestFrameBody.parse :
    Parse ReassociationRequestFrameBody := do
  let capability_info ← CapabilityInfo.parse
  let listen_interval ← leU16
  let current_ap_address ← Datalink.Addr.parse
  let ssid ← Element.parse
  let supported_rates ← Element.parse
  pure { capability_info := capability_info,
         listen_interval := listen_interval,
         current_ap_address := current_ap_address, ssid := ssid,
         supported_rates := supported_rates }

/-- layer2/wifi/management.rs AssociationResponseFrameBody. -/
structure AssociationResponseFrameBody where
  capability_info : CapabilityInfo
  status_code : String
  association_id : Nat
  supported_rates : Element
deriving Repr, DecidableEq

/-- AssociationResponseFrameBody::parse. -/
def AssociationResponseFrameBody.parse :
    Parse AssociationResponseFrameBody := do
  let capability_info ← CapabilityInfo.parse
  let status_code ← statusCodeParse
  let association_id ← leU16
  let supported_rates ← Element.parse
  pure { capability_info := capability_info, status_code := status_code,
         association_id := association_id,
         supported_rates := supported_rates }

/-- layer2/wifi/management.rs AuthenticationFrameBody. -/
structure AuthenticationFrameBody where
  algo_num : Option AuthenticationAlgorithm
  auth_seq : Nat
  status_code : String
  challenge_text : Element
deriving Repr, DecidableEq

/-- AuthenticationFrameBody::parse. -/
def AuthenticationFrameBody.parse : Parse AuthenticationFrameBody := do
  let algo_num ← AuthenticationAlgorithm.parse
  let auth_seq ← leU16
  let status_code ← statusCodeParse
  let challenge_text ← Element.parse
  pure { algo_num := algo_num, auth_seq := auth_seq,
         status_code := status_code, challenge_text := challenge_text }

/-- layer2/wifi/management.rs DeauthenticationFrameBody. -/
structure DeauthenticationFrameBody where
  reason_code : String
deriving Repr, DecidableEq

/-- DeauthenticationFrameBody::parse. -/
def DeauthenticationFrameBody.parse : Parse DeauthenticationFrameBody := do
  let rc ← reasonCodeParse
  pure { reason_code := rc }

end Management

namespace WifiData

/-- layer2/wifi/data.rs DataFrameBody: the LLC/SNAP path is commented out in
the source; the body copies all bytes except the final three
(SEQ_CONTROL_SIZE - 1) into the payload blob, or the whole input when fewer
than three bytes remain, and consumes nothing. -/
structure DataFrameBody where
  payload : Blob
deriving Repr, DecidableEq

/-- DataFrameBody::parse. -/
def DataFrameBody.parse : Parse DataFrameBody := fun i =>
  .ok i { payload := if 3 ≤ i.length then i.take (i.length - 3) else i }

end WifiData

namespace Dot11

/-- layer2/wifi/dot11.rs FrameBody.  The Disassociation variant is declared
in the source but never produced: Disassociation subtypes are routed through
the Deauthentication arm. -/
inductive FrameBody where
  | Data (b : WifiData.DataFrameBody)
  | Beacon (b : Management.BeaconFrameBody)
  | ProbeRequest (b : Management.ProbeRequestFrameBody)
  | ProbeResponse (b : Management.ProbeResponseFrameBody)
  | Deauthentication (b : Management.DeauthenticationFrameBody)
  | Disassociation (reason : String)
  | Authentication (b : Management.AuthenticationFrameBody)
  | AssociationRequest (b : Management.AssociationRequestFrameBody)
  | ReassociationRequest (b : Management.ReassociationRequestFrameBody)
  | AssociationResponse (b : Management.AssociationResponseFrameBody)
  | ReassociationResponse (b : Management.AssociationResponseFrameBody)
  | Encrypted (b : Blob)
  | Empty
  | Malformed
deriving Repr, DecidableEq

/-- FrameBody::parse.  When the protected flag is set and at least four
bytes remain, the source runs take(len - 4) but binds the taken body bytes
to an underscore and builds the blob from the remaining input, so the
Encrypted blob holds the final four bytes (the FCS window) and the body
bytes are discarded; with fewer than four bytes the body is Empty.
Otherwise the body is dispatched on type and subtype, with unhandled
combinations yielding Empty without consuming input. -/
def FrameBody.parse (fc : FrameControl) : Parse FrameBody := do
  let cur ← getInput
  if fc.flags.protected_flag = 1 then
    if 4 ≤ cur.length then do
      let _ ← takeN (cur.length - SEQ_CONTROL_SIZE)
      let blobSrc ← getInput
      pure (FrameBody.Encrypted blobSrc)
    else pure FrameBody.Empty
  else
    match fc.typ with
    | .Data =>
      match fc.subtype with
      | .Data | .Data_And_CFAck | .Data_And_CFPoll
      | .Data_And_CFAck_And_CFPoll | .QoSData | .QoSData_And_CFAck
      | .QoSData_And_CFPoll | .QoSData_And_CFAck_And_CFPoll => do
          let b ← WifiData.DataFrameBody.parse
          pure (FrameBody.Data b)
      | _ => pure FrameBody.Empty
    | .Management =>
      match fc.subtype with
      | .Beacon => do
          let b ← Management.BeaconFrameBody.parse
          pure (FrameBody.Beacon b)
      | .ProbeRequest => do
          let b ← Management.ProbeRequestFrameBody.parse
          pure (FrameBody.ProbeRequest b)
      | .ProbeResponse => do
          let b ← Management.ProbeResponseFrameBody.parse
          pure (FrameBody.ProbeResponse b)
      | .Deauthentication | .Disassociation => do
          let b ← Management.DeauthenticationFrameBody.parse
          pure (FrameBody.Deauthentication b)
      | .Authentication => do
          let b ← Management.AuthenticationFrameBody.parse
          pure (FrameBody.Authentication b)
      | .AssociationRequest => do
          let b ← Management.AssociationRequestFrameBody.parse
          pure (FrameBody.AssociationRequest b)
      | .ReassociationRequest => do
          let b ← Management.ReassociationRequestFrameBody.parse
          pure (FrameBody.ReassociationRequest b)
      | .AssociationResponse | .ReassociationResponse => do
          let b ← Management.AssociationResponseFrameBody.parse
          pure (FrameBody.AssociationResponse b)
      | _ => pure FrameBody.Empty
    | _ => pure FrameBody.Empty

/-- The address block of a frame: addr1, optional addr2, addr3, sequence
control and addr4, as returned by Frame::parse_addr. -/
abbrev AddrBlock : Type :=
  Dot11Addr × Option Dot11Addr × Option Dot11Addr × Option SeqControl ×
    Option Dot11Addr

/-- Frame::parse_addr: the address layout table.  Data frames read three
addresses and sequence control, with the role tags selected by the to_ds
and from_ds bits and a fourth address only in the to_ds = from_ds = 1 case;
RTS and PS-Poll control frames read two addresses, other control frames
one; management frames read three addresses and sequence control; any other
type reads a single receiver address. -/
def Frame.parseAddr (fc : FrameControl) : Parse AddrBlock := do
  match fc.typ with
  | .Data => do
    let a1 ← Datalink.Addr.parse
    let a2 ← Datalink.Addr.parse
    let a3 ← Datalink.Addr.parse
    let sc ← SeqControl.parse
    if fc.flags.to_ds = 0 ∧ fc.flags.from_ds = 0 then
      pure (Dot11Addr.DestinationAddress a1, some (Dot11Addr.SourceAddress a2),
        some (Dot11Addr.BSSID a3), some sc, none)
    else if fc.flags.to_ds = 1 ∧ fc.flags.from_ds = 0 then
      pure (Dot11Addr.BSSID a1, some (Dot11Addr.SourceAddress a2),
        some (Dot11Addr.DestinationAddress a3), some sc, none)
    else if fc.flags.to_ds = 0 ∧ fc.flags.from_ds = 1 then
      pure (Dot11Addr.DestinationAddress a1, some (Dot11Addr.BSSID a2),
        some (Dot11Addr.SourceAddress a3), some sc, none)
    else do
      let a4 ← Datalink.Addr.parse
      pure (Dot11Addr.ReceiverAddress a1,
        some (Dot11Addr.TransmitterAddress a2),
        some (Dot11Addr.DestinationAddress a3), some sc,
        some (Dot11Addr.SourceAddress a4))
  | .Control =>
    match fc.subtype with
    | .RequestToSend => do
        let a1 ← Datalink.Addr.parse
        let a2 ← Datalink.Addr.parse
        pure (Dot11Addr.ReceiverAddress a1,
          some (Dot11Addr.TransmitterAddress a2), none, none, none)
    | .PSPoll => do
        let a1 ← Datalink.Addr.parse
        let a2 ← Datalink.Addr.parse
        pure (Dot11Addr.BSSID a1, some (Dot11Addr.TransmitterAddress a2),
          none, none, none)
    | _ => do
        let a1 ← Datalink.Addr.parse
        pure (Dot11Addr.ReceiverAddress a1, none, none, none, none)
  | .Management => do
    let a1 ← Datalink.Addr.parse
    let a2 ← Datalink.Addr.parse
    let a3 ← Datalink.Addr.parse
    let sc ← SeqControl.parse
    pure (Dot11Addr.DestinationAddress a1, some (Dot11Addr.SourceAddress a2),
      some (Dot11Addr.BSSID a3), some sc, none)
  | _ => do
    let a1 ← Datalink.Addr.parse
    pure (Dot11Addr.ReceiverAddress a1, none, none, none, none)

/-- layer2/wifi/dot11.rs Frame. -/
structure Frame where
  fc : FrameControl
  duration : Nat
  addr1 : Dot11Addr
  addr2 : Option Dot11Addr
  addr3 : Option Dot11Addr
  seq_control : Option SeqControl
  addr4 : Option Dot11Addr
  frame_body : FrameBody
  fcs : Nat
deriving Repr, DecidableEq

/-- Frame::parse: frame control, little-endian duration, the address block,
the frame body, then the little-endian 32-bit FCS. -/
def Frame.parse : Parse Frame := do
  let fc ← FrameControl.parse
  let duration ← leU16
  let ab ← Frame.parseAddr fc
  let frame_body ← FrameBody.parse fc
  let fcs ← leU32
  match ab with
  | (addr1, addr2, addr3, seq_control, addr4) =>
    pure { fc := fc, duration := duration, addr1 := addr1, addr2 := addr2,
           addr3 := addr3, seq_control := seq_control, addr4 := addr4,
           frame_body := frame_body, fcs := fcs }

end Dot11

namespace TopLevel

/-- The parsers a captured packet is fed through, in order. -/
inductive DecodeStep where
  | ethernetStep
  | radioTapStep
  | dot11Step
deriving Repr, DecidableEq

/-- The link-type dispatch of run (lib.rs lines 225 to 240): link type 1
feeds the packet to the Ethernet frame parser; link types 105, 119, 127 and
163 all feed it to the RadioTap header parser followed by the 802.11 frame
parser; every other link type panics (none) with an Unsupported interface
message instead of producing an error value. -/
def runLinkSteps (linkType : Nat) : Option (List DecodeStep) :=
  if linkType = 1 then some [DecodeStep.ethernetStep]
  else if linkType = 105 ∨ linkType = 119 ∨ linkType = 127 ∨ linkType = 163
    then some [DecodeStep.radioTapStep, DecodeStep.dot11Step]
  else none

end TopLevel

/-- Projection of a TCP parse onto its decoded options. -/
def tcpOptionsOf (i : List Nat) : Option Tcp.Options :=
  match Tcp.Packet.parse i with
  | .ok _ p => some p.options
  | _ => none

/-- Projection of an 802.11 parse onto its decoded frame body. -/
def dot11BodyOf (i : List Nat) : Option Dot11.FrameBody :=
  match Dot11.Frame.parse i with
  | .ok _ f => some f.frame_body
  | _ => none

/-- Projection of an 802.11 parse onto its decoded FCS. -/
def dot11FcsOf (i : List Nat) : Option Nat :=
  match Dot11.Frame.parse i with
  | .ok _ f => some f.fcs
  | _ => none

/-- A protected 802.11 data frame used as concrete input: frame control
bytes 0x08 0x40 (type Data, subtype 0, protected flag set), zero duration,
three addresses, sequence control 0x12 0x34, then a nine-byte frame-body
region 1 through 9 whose final four bytes double as the FCS. -/
def protectedFrameInput : List Nat :=
  [0x08, 0x40, 0, 0,
   1, 1, 1, 1, 1, 1, 2, 2, 2, 2, 2, 2, 3, 3, 3, 3, 3, 3, 0x12, 0x34,
   1, 2, 3, 4, 5, 6, 7, 8, 9]

/-- A TCP segment used as concrete input: an all-zero 20-byte header except
for data offset 6 (byte 12 is 0x60), followed by option bytes kind 2 and
length 4, four bytes of option data, and one payload byte. -/
def tcpOptionInput : List Nat :=
  [0, 0, 0, 0, 0, 0, 0, 0, 0, 0, 0, 0, 0x60, 0, 0, 0, 0, 0, 0, 0,
   2, 4, 0xAA, 0xBB, 0xCC, 0xDD, 0xEE]

/-- A UDP datagram used as concrete input: ports 7 and 9, length 12, zero
checksum, three payload bytes. -/
def udpInput : List Nat := [0, 7, 0, 9, 0, 12, 0, 0, 1, 2, 3]

/-- A minimal protected 802.11 extension frame used as concrete input:
frame control 0x0C 0x40 (type Extension, protected flag set), zero
duration, one receiver address, then a four-byte body region that doubles
as the FCS. -/
def protectedExtFrameInput : List Nat :=
  [0x0C, 0x40, 0, 0, 9, 9, 9, 9, 9, 9, 1, 2, 3, 4]

/-- An Ethernet frame with an unknown EtherType 0x1234 used as concrete
input. -/
def ethUnknownInput : List Nat :=
  [1, 2, 3, 4, 5, 6, 7, 8, 9, 10, 11, 12, 0x12, 0x34]

/-- The frame decoded from ethUnknownInput. -/
def ethUnknownFrame : Ethernet.Frame :=
  { dst := [1, 2, 3, 4, 5, 6], src := [7, 8, 9, 10, 11, 12],
    ether_type := none, payload := some Datalink.Payload.Unknown }

/-- Whether a frame body is the Encrypted or the Empty variant. -/
def encryptedOrEmpty (b : Dot11.FrameBody) : Bool :=
  match b with
  | .Encrypted _ => true
  | .Empty => true
  | _ => false

/-- The frame decoded from protectedExtFrameInput. -/
def protectedExtFrame : Dot11.Frame :=
  { fc := { version := 0, typ := .Extension, subtype := .DMGBeacon,
            flags := { to_ds := 0, from_ds := 0, more_fragments := 0,
                       retry := 0, power_mgmt := 0, more_data := 0,
                       protected_flag := 1, order := 0 } },
    duration := 0, addr1 := .ReceiverAddress [9, 9, 9, 9, 9, 9],
    addr2 := none, addr3 := none, seq_control := none, addr4 := none,
    frame_body := .Encrypted [1, 2, 3, 4], fcs := 67305985 }

/-- A parser keeps the remaining input a suffix of its input; together with
the length equation this is the consumption invariant of claim C7. -/
def KeepsRest {α : Type} (p : Parse α) : Prop :=
  ∀ i rest v, p i = .ok rest v → rest <:+ i

/-- A bit-level parser only drops whole bytes from the byte slice of its
cursor. -/
def BitDrops {α : Type} (p : BitParse α) : Prop :=
  ∀ bs off bs2 off2 v, p (bs, off) = .ok (bs2, off2) v → bs2 <:+ bs

/-! Characterisation lemmas for the parser primitives. -/

theorem bind_ok {α β : Type} {p : Parse α} {f : α → Parse β} {i rest : List Nat}
    {v : β} :
    Parse.bind p f i = .ok rest v ↔
      ∃ j a, p i = .ok j a ∧ f a j = .ok rest v := by
  constructor
  · intro h
    unfold Parse.bind at h
    cases hp : p i with
    | ok j a =>
      rw [hp] at h
      exact ⟨j, a, rfl, h⟩
    | err => rw [hp] at h; cases h
    | panicked => rw [hp] at h; cases h
  · rintro ⟨j, a, h1, h2⟩
    unfold Parse.bind
    rw [h1]
    exact h2

theorem pure_ok {α : Type} {a : α} {i rest : List Nat} {v : α} :
    Parse.pure a i = .ok rest v ↔ rest = i ∧ v = a := by
  constructor
  · intro h
    unfold Parse.pure at h
    injection h with h1 h2
    exact ⟨h1.symm, h2.symm⟩
  · rintro ⟨rfl, rfl⟩
    rfl

theorem takeN_ok {n : Nat} {i rest v : List Nat} :
    takeN n i = .ok rest v ↔ n ≤ i.length ∧ rest = i.drop n ∧ v = i.take n := by
  constructor
  · intro h
    unfold takeN at h
    split at h
    · rename_i hle
      injection h with h1 h2
      exact ⟨hle, h1.symm, h2.symm⟩
    · cases h
  · rintro ⟨hle, rfl, rfl⟩
    unfold takeN
    simp [hle]

theorem beU8_ok {i rest : List Nat} {v : Nat} :
    beU8 i = .ok rest v ↔ i = v :: rest := by
  constructor
  · intro h
    unfold beU8 at h
    cases i with
    | nil => cases h
    | cons b t =>
      injection h with h1 h2
      rw [h1, h2]
  · rintro rfl
    rfl

theorem beU16_ok {i rest : List Nat} {v : Nat} :
    beU16 i = .ok rest v ↔
      ∃ b0 b1, i = b0 :: b1 :: rest ∧ v = b0 * 256 + b1 := by
  constructor
  · intro h
    unfold beU16 at h
    match i with
    | [] => cases h
    | [b0] => cases h
    | b0 :: b1 :: t =>
      injection h with h1 h2
      exact ⟨b0, b1, by rw [h1], h2.symm⟩
  · rintro ⟨b0, b1, rfl, rfl⟩
    rfl

theorem beU32_ok {i rest : List Nat} {v : Nat} :
    beU32 i = .ok rest v ↔
      ∃ b0 b1 b2 b3, i = b0 :: b1 :: b2 :: b3 :: rest ∧
        v = ((b0 * 256 + b1) * 256 + b2) * 256 + b3 := by
  constructor
  · intro h
    unfold beU32 at h
    match i with
    | [] => cases h
    | [b0] => cases h
    | [b0, b1] => cases h
    | [b0, b1, b2] => cases h
    | b0 :: b1 :: b2 :: b3 :: t =>
      injection h with h1 h2
      exact ⟨b0, b1, b2, b3, by rw [h1], h2.symm⟩
  · rintro ⟨b0, b1, b2, b3, rfl, rfl⟩
    rfl

theorem leU16_ok {i rest : List Nat} {v : Nat} :
    leU16 i = .ok rest v ↔
      ∃ b0 b1, i = b0 :: b1 :: rest ∧ v = b0 + b1 * 256 := by
  constructor
  · intro h
    unfold leU16 at h
    match i with
    | [] => cases h
    | [b0] => cases h
    | b0 :: b1 :: t =>
      injection h with h1 h2
      exact ⟨b0, b1, by rw [h1], h2.symm⟩
  · rintro ⟨b0, b1, rfl, rfl⟩
    rfl

theorem leU32_ok {i rest : List Nat} {v : Nat} :
    leU32 i = .ok rest v ↔
      ∃ b0 b1 b2 b3, i = b0 :: b1 :: b2 :: b3 :: rest ∧
        v = b0 + 256 * (b1 + 256 * (b2 + 256 * b3)) := by
  constructor
  · intro h
    unfold leU32 at h
    match i with
    | [] => cases h
    | [b0] => cases h
    | [b0, b1] => cases h
    | [b0, b1, b2] => cases h
    | b0 :: b1 :: b2 :: b3 :: t =>
      injection h with h1 h2
      exact ⟨b0, b1, b2, b3, by rw [h1], h2.symm⟩
  · rintro ⟨b0, b1, b2, b3, rfl, rfl⟩
    rfl

theorem getInput_ok {i rest v : List Nat} :
    getInput i = .ok rest v ↔ rest = i ∧ v = i := by
  constructor
  · intro h
    unfold getInput at h
    injection h with h1 h2
    exact ⟨h1.symm, h2.symm⟩
  · rintro ⟨rfl, rfl⟩
    rfl

/-! Evaluation lemmas for single bit-field reads at fixed positions. -/

theorem takeBits4at0 (b0 b1 : Nat) (rest : List Nat) :
    takeBits 4 (b0 :: b1 :: rest, 0) =
      .ok (b0 :: b1 :: rest, 4)
        (8 * (b0 / 128 % 2) + 4 * (b0 / 64 % 2) + 2 * (b0 / 32 % 2) +
          b0 / 16 % 2) := by
  unfold takeBits
  dsimp only
  rw [if_neg (by simp only [List.length_cons]; omega)]
  simp [byteBits, natFromBits]
  ring

theorem takeBits12at4 (b0 b1 : Nat) (rest : List Nat) :
    takeBits 12 (b0 :: b1 :: rest, 4) =
      .ok (rest, 0)
        (natFromBits [b0 / 8 % 2, b0 / 4 % 2, b0 / 2 % 2, b0 % 2,
          b1 / 128 % 2, b1 / 64 % 2, b1 / 32 % 2, b1 / 16 % 2,
          b1 / 8 % 2, b1 / 4 % 2, b1 / 2 % 2, b1 % 2]) := by
  unfold takeBits
  dsimp only
  rw [if_neg (by simp only [List.length_cons]; omega)]
  simp [byteBits]

theorem takeBits1at0 (b : Nat) (t : List Nat) :
    takeBits 1 (b :: t, 0) = .ok (b :: t, 1) (b / 128 % 2) := by
  unfold takeBits
  dsimp only
  rw [if_neg (by simp only [List.length_cons]; omega)]
  simp [byteBits, natFromBits]

theorem takeBits1at1 (b : Nat) (t : List Nat) :
    takeBits 1 (b :: t, 1) = .ok (b :: t, 2) (b / 64 % 2) := by
  unfold takeBits
  dsimp only
  rw [if_neg (by simp only [List.length_cons]; omega)]
  simp [byteBits, natFromBits]

theorem takeBits1at2 (b : Nat) (t : List Nat) :
    takeBits 1 (b :: t, 2) = .ok (b :: t, 3) (b / 32 % 2) := by
  unfold takeBits
  dsimp only
  rw [if_neg (by simp only [List.length_cons]; omega)]
  simp [byteBits, natFromBits]

theorem takeBits1at3 (b : Nat) (t : List Nat) :
    takeBits 1 (b :: t, 3) = .ok (b :: t, 4) (b / 16 % 2) := by
  unfold takeBits
  dsimp only
  rw [if_neg (by simp only [List.length_cons]; omega)]
  simp [byteBits, natFromBits]

theorem takeBits1at4 (b : Nat) (t : List Nat) :
    takeBits 1 (b :: t, 4) = .ok (b :: t, 5) (b / 8 % 2) := by
  unfold takeBits
  dsimp only
  rw [if_neg (by simp only [List.length_cons]; omega)]
  simp [byteBits, natFromBits]

/-! Claim C3: the sequence-control split. -/

/-- C3, counterexample: on the two bytes 0x12 0x34 the decoder yields
fragment number 1 and sequence number 0x234, whereas the claimed
little-endian reading v = 0x3412 would give v mod 16 = 2 and
v / 16 = 0x341. -/
theorem c3_counterexample :
    Dot11.SeqControl.parse [0x12, 0x34] =
      .ok [] { frag_num := 1, seq_num := 0x234 } ∧
    ¬(1 = (0x12 + 0x34 * 256) % 16 ∧ 0x234 = (0x12 + 0x34 * 256) / 16) :=
  ⟨rfl, by decide⟩

/-- C3, amended: SeqControl::parse reads the two bytes MSB-first without a
little-endian byte swap: frag_num is the high nibble of the first byte and
seq_num is the low nibble of the first byte followed by the second byte. -/
theorem c3_seqcontrol_amended (b0 b1 : Nat) (rest : List Nat)
    (h0 : b0 < 256) (h1 : b1 < 256) :
    Dot11.SeqControl.parse (b0 :: b1 :: rest) =
      .ok rest { frag_num := b0 / 16, seq_num := b0 % 16 * 256 + b1 } := by
  unfold Dot11.SeqControl.parse
  simp only [bindDef, pureDef, bbindDef, bits, BitParse.bind, BitParse.pure,
    Parse.bind, Parse.pure, takeBits4at0, takeBits12at4]
  norm_num [natFromBits]
  constructor
  · omega
  · omega

/-- C3, witness for the amended theorem at bytes 0x12 0x34. -/
theorem c3_seqcontrol_amended_witness :
    Dot11.SeqControl.parse [0x12, 0x34] =
      .ok [] { frag_num := 0x12 / 16, seq_num := 0x12 % 16 * 256 + 0x34 } :=
  c3_seqcontrol_amended 0x12 0x34 [] (by decide) (by decide)

/-! Claim C5: the UDP payload and remaining input. -/

/-- C5, counterexample: on a concrete 11-byte datagram the decoder returns
the three post-header bytes both as the payload and as the remaining input,
so the remaining input is not empty as claimed. -/
theorem c5_counterexample :
    Udp.Datagram.parse udpInput =
      .ok [1, 2, 3] { src_port := 7, dst_port := 9, len := 12, checksum := 0,
                      payload := [1, 2, 3] } ∧
    ([1, 2, 3] : List Nat) ≠ [] :=
  ⟨rfl, by decide⟩

/-- C5, amended: whenever UDP Datagram::parse succeeds the payload field
equals all bytes after the fixed 8-byte header, and the returned remaining
input equals those same bytes: the parser does not consume the payload, so
the remaining input is empty only when nothing follows the header. -/
theorem c5_udp_payload_and_remaining (i rest : List Nat) (d : Udp.Datagram)
    (h : Udp.Datagram.parse i = .ok rest d) :
    d.payload = i.drop 8 ∧ rest = i.drop 8 := by
  unfold Udp.Datagram.parse at h
  simp only [bindDef, pureDef, bind_ok, pure_ok, getInput_ok, beU16_ok] at h
  obtain ⟨j1, a1, ⟨b0, b1, hi, rfl⟩, j2, a2, ⟨b2, b3, hj1, rfl⟩, j3, a3,
    ⟨b4, b5, hj2, rfl⟩, j4, a4, ⟨b6, b7, hj3, rfl⟩, j5, a5, ⟨hj5, ha5⟩,
    hrest, hd⟩ := h
  subst hi hj1 hj2 hj3 hj5 ha5 hrest hd
  simp

/-- C5, witness for the amended theorem at the concrete datagram. -/
theorem c5_udp_payload_and_remaining_witness :
    ({ src_port := 7, dst_port := 9, len := 12, checksum := 0,
       payload := [1, 2, 3] } : Udp.Datagram).payload = udpInput.drop 8 ∧
    ([1, 2, 3] : List Nat) = udpInput.drop 8 :=
  c5_udp_payload_and_remaining udpInput [1, 2, 3]
    { src_port := 7, dst_port := 9, len := 12, checksum := 0,
      payload := [1, 2, 3] } rfl

/-! Claim C4: the TCP option data length. -/

/-- C4, counterexample: a segment with data offset 6 whose option area
starts with kind 2 and length 4 decodes to an option carrying the four
following bytes, not len - 2 = 2 bytes as claimed. -/
theorem c4_counterexample :
    tcpOptionsOf tcpOptionInput =
      some (.Data { kind := 2, len := 4, data := [0xAA, 0xBB, 0xCC, 0xDD] }) ∧
    ¬([0xAA, 0xBB, 0xCC, 0xDD] : List Nat).length = 4 - 2 :=
  ⟨rfl, by decide⟩

/-- C4, amended: when the data offset exceeds 5 and the first option byte k
is neither 0x00 nor 0x01, the decoded option is Data with kind k, len the
second option byte, and data exactly the len bytes following the two header
bytes (the length field is not interpreted as counting the header bytes). -/
theorem c4_option_data (offset k len : Nat) (tail : List Nat)
    (hoff : 5 < offset) (hk0 : k ≠ 0x00) (hk1 : k ≠ 0x01)
    (hlen : len ≤ tail.length) :
    Tcp.Packet.getOpts offset (k :: len :: tail) =
      .ok (tail.drop len)
        (.Data { kind := k, len := len, data := tail.take len }) := by
  unfold Tcp.Packet.getOpts
  rw [if_pos hoff]
  dsimp only
  rw [if_neg (by tauto)]
  unfold Tcp.DataOptions.parse
  simp only [bindDef, pureDef, Parse.bind, Parse.pure, beU8, takeN]
  rw [if_pos hlen]

/-- C4, witness for the amended theorem at the concrete option bytes. -/
theorem c4_option_data_witness :
    Tcp.Packet.getOpts 6 (2 :: 4 :: [0xAA, 0xBB, 0xCC, 0xDD, 0xEE]) =
      .ok ([0xAA, 0xBB, 0xCC, 0xDD, 0xEE].drop 4)
        (.Data { kind := 2, len := 4,
                 data := [0xAA, 0xBB, 0xCC, 0xDD, 0xEE].take 4 }) :=
  c4_option_data 6 2 4 [0xAA, 0xBB, 0xCC, 0xDD, 0xEE] (by decide) (by decide)
    (by decide) (by decide)

/-! Claim C1: the Ethernet payload dispatch. -/

/-- C1: whenever Ethernet Frame::parse succeeds, the payload variant is
determined by the decoded ether_type: a Some(IPv4) tag yields the IPv4
payload variant, symmetrically for IPv6 and ARP, and a None tag yields the
Unknown payload with the input after the 14-byte header returned unchanged
as the remaining input. -/
theorem c1_ethernet_payload_dispatch (i rest : List Nat) (f : Ethernet.Frame)
    (h : Ethernet.Frame.parse i = .ok rest f) :
    (f.ether_type = some .IPv4 →
      ∃ p, f.payload = some (Datalink.Payload.IPv4 p)) ∧
    (f.ether_type = some .IPv6 →
      ∃ p, f.payload = some (Datalink.Payload.IPv6 p)) ∧
    (f.ether_type = some .ARP →
      ∃ p, f.payload = some (Datalink.Payload.ARP p)) ∧
    (f.ether_type = none →
      f.payload = some Datalink.Payload.Unknown ∧ rest = i.drop 14) := by
  unfold Ethernet.Frame.parse at h
  simp only [bindDef, pureDef, Datalink.Addr.parse, Datalink.EtherType.parse,
    bind_ok, pure_ok, takeN_ok, beU16_ok] at h
  simp at h
  obtain ⟨j1, dst, ⟨hlen1, hj1, hdst⟩, j2, src, ⟨hlen2, hj2, hsrc⟩, j3, et,
    ⟨jj, av, ⟨b0, b1, hcons, hav⟩, hjj, hety⟩, hmatch⟩ := h
  subst hety hav hjj hcons hj1
  cases het : Datalink.EtherType.tryFrom (b0 * 256 + b1) with
  | none =>
    rw [het] at hmatch
    simp only [bindDef, pureDef, bind_ok, pure_ok] at hmatch
    obtain ⟨jx, py, ⟨rfl, rfl⟩, rfl, rfl⟩ := hmatch
    refine ⟨by simp [het], by simp [het], by simp [het], fun _ => ⟨by simp, ?_⟩⟩
    have h14 : List.drop 6 (List.drop 6 i) = List.drop 12 i := by
      simp [List.drop_drop]
    rw [h14] at hj2
    have h2 := congrArg (List.drop 2) hj2
    simpa [List.drop_drop] using h2
  | some e =>
    cases e with
    | IPv4 =>
      rw [het] at hmatch
      simp only [bindDef, pureDef, bind_ok, pure_ok] at hmatch
      obtain ⟨j5, p, hp, jx, py, ⟨rfl, rfl⟩, rfl, rfl⟩ := hmatch
      exact ⟨fun _ => ⟨p, by simp⟩, by simp [het], by simp [het], by simp [het]⟩
    | IPv6 =>
      rw [het] at hmatch
      simp only [bindDef, pureDef, bind_ok, pure_ok] at hmatch
      obtain ⟨j5, p, hp, jx, py, ⟨rfl, rfl⟩, rfl, rfl⟩ := hmatch
      exact ⟨by simp [het], fun _ => ⟨p, by simp⟩, by simp [het], by simp [het]⟩
    | ARP =>
      rw [het] at hmatch
      simp only [bindDef, pureDef, bind_ok, pure_ok] at hmatch
      obtain ⟨j5, p, hp, jx, py, ⟨rfl, rfl⟩, rfl, rfl⟩ := hmatch
      exact ⟨by simp [het], by simp [het], fun _ => ⟨p, by simp⟩, by simp [het]⟩

/-- C1, witness at the concrete frame with unknown EtherType 0x1234. -/
theorem c1_ethernet_payload_dispatch_witness :
    (ethUnknownFrame.ether_type = some .IPv4 →
      ∃ p, ethUnknownFrame.payload = some (Datalink.Payload.IPv4 p)) ∧
    (ethUnknownFrame.ether_type = some .IPv6 →
      ∃ p, ethUnknownFrame.payload = some (Datalink.Payload.IPv6 p)) ∧
    (ethUnknownFrame.ether_type = some .ARP →
      ∃ p, ethUnknownFrame.payload = some (Datalink.Payload.ARP p)) ∧
    (ethUnknownFrame.ether_type = none →
      ethUnknownFrame.payload = some Datalink.Payload.Unknown ∧
        ([] : List Nat) = ethUnknownInput.drop 14) :=
  c1_ethernet_payload_dispatch ethUnknownInput [] ethUnknownFrame rfl

/-! Claim C2: the protected frame-body blob. -/

/-- C2: on the concrete protected data frame whose frame-body region is the
nine bytes 1 through 9, the decode succeeds, the final four bytes are still
consumed as the little-endian FCS 0x09080706, but the Encrypted blob holds
those same final four bytes 6 7 8 9 (take(len - 4) binds the body bytes to
an underscore and the blob is built from the remaining input), not the
body-minus-FCS bytes 1 through 5; in particular its length is 4, not
9 - 4 = 5 as the claim requires. -/
theorem c2_encrypted_blob_is_fcs_window :
    dot11BodyOf protectedFrameInput =
      some (.Encrypted [6, 7, 8, 9]) ∧
    dot11FcsOf protectedFrameInput = some 151521030 ∧
    ([6, 7, 8, 9] : List Nat).length ≠ 9 - 4 :=
  ⟨rfl, rfl, by decide⟩

/-! Claim C9: bit-field parses that exit off a byte boundary. -/

/-- C9, counterexample: the 3-bit ERPInfo element parse exits with the bit
cursor at offset 3, yet the parse succeeds (consuming the whole byte)
instead of failing with an Unaligned error; the error type of the decoder
has no such error kind at all. -/
theorem c9_counterexample :
    Management.ERPInfo.parse 42 1 [0xA0, 99] =
      .ok [99] { common := { id := 42, len := 1 }, non_erp_present := 1,
                 use_protection := 0, barker_preamble := 1 } ∧
    Management.ERPInfo.parse 42 1 [0xA0, 99] ≠ .err :=
  ⟨rfl, by decide⟩

/-- C9, amended: the bits(...) combinator performs no alignment check and
never fails on an unaligned exit; instead the byte cursor is rounded up
past the partially consumed byte, so every bit-field parse (including the
3-bit ERPInfo element and the 5-bit IBSS-DFS channel map) succeeds whenever
enough input remains and resumes at a byte boundary, having consumed one
whole byte. -/
theorem c9_bits_never_unaligned (id len b : Nat) (tail : List Nat) :
    Management.ERPInfo.parse id len (b :: tail) =
      .ok tail { common := { id := id, len := len },
                 non_erp_present := b / 128 % 2, use_protection := b / 64 % 2,
                 barker_preamble := b / 32 % 2 } ∧
    Management.IBSSDFSChannelMap.parse (b :: tail) =
      .ok tail { bss := b / 128 % 2, ofdm_preamble := b / 64 % 2,
                 unidentified := b / 32 % 2, radar := b / 16 % 2,
                 unmeasured := b / 8 % 2 } := by
  constructor
  · unfold Management.ERPInfo.parse
    simp only [bindDef, pureDef, bbindDef, bits, BitParse.bind, BitParse.pure,
      Parse.bind, Parse.pure, takeBits1at0, takeBits1at1, takeBits1at2]
    norm_num
  · unfold Management.IBSSDFSChannelMap.parse
    simp only [bindDef, pureDef, bbindDef, bits, BitParse.bind, BitParse.pure,
      Parse.bind, Parse.pure, takeBits1at0, takeBits1at1, takeBits1at2,
      takeBits1at3, takeBits1at4]
    norm_num

/-! Claim C6: the top-level link-type dispatch. -/

/-- C6, counterexample: link type 105 is dispatched to RadioTap followed by
the 802.11 parser, not to the 802.11 parser directly, and link type 2 makes
run panic (modelled as none) instead of failing with an
UnsupportedLinkType error result. -/
theorem c6_counterexample :
    TopLevel.runLinkSteps 105 =
      some [TopLevel.DecodeStep.radioTapStep, TopLevel.DecodeStep.dot11Step] ∧
    TopLevel.runLinkSteps 105 ≠ some [TopLevel.DecodeStep.dot11Step] ∧
    TopLevel.runLinkSteps 2 = none :=
  ⟨rfl, by decide, rfl⟩

/-- C6, amended: the dispatch maps 1 to Ethernet; 105, 119, 127 and 163 all
to RadioTap followed by 802.11; every other link-type value panics with an
Unsupported interface message (modelled as none) rather than returning an
error value. -/
theorem c6_dispatch_amended :
    TopLevel.runLinkSteps 1 = some [TopLevel.DecodeStep.ethernetStep] ∧
    TopLevel.runLinkSteps 105 =
      some [TopLevel.DecodeStep.radioTapStep, TopLevel.DecodeStep.dot11Step] ∧
    TopLevel.runLinkSteps 119 =
      some [TopLevel.DecodeStep.radioTapStep, TopLevel.DecodeStep.dot11Step] ∧
    TopLevel.runLinkSteps 127 =
      some [TopLevel.DecodeStep.radioTapStep, TopLevel.DecodeStep.dot11Step] ∧
    TopLevel.runLinkSteps 163 =
      some [TopLevel.DecodeStep.radioTapStep, TopLevel.DecodeStep.dot11Step] ∧
    ∀ n, n ≠ 1 → n ≠ 105 → n ≠ 119 → n ≠ 127 → n ≠ 163 →
      TopLevel.runLinkSteps n = none := by
  refine ⟨rfl, rfl, rfl, rfl, rfl, ?_⟩
  intro n h1 h2 h3 h4 h5
  unfold TopLevel.runLinkSteps
  rw [if_neg h1, if_neg (by tauto)]

/-- C6, witness for the amended theorem at link type 2. -/
theorem c6_dispatch_amended_witness : TopLevel.runLinkSteps 2 = none :=
  c6_dispatch_amended.2.2.2.2.2 2 (by decide) (by decide) (by decide)
    (by decide) (by decide)

/-! Claim C8: a protected frame body never reaches the body dispatch. -/

/-- Helper for claim C8: FrameBody::parse checks the protected flag before
the type and subtype dispatch, so a set flag yields Encrypted or Empty and
the body dispatch (including any LLC/SNAP interpretation) is never
reached. -/
theorem framebody_protected_cases (fc : Dot11.FrameControl)
    (hp : fc.flags.protected_flag = 1) (i rest : List Nat)
    (b : Dot11.FrameBody) (h : Dot11.FrameBody.parse fc i = .ok rest b) :
    encryptedOrEmpty b = true := by
  unfold Dot11.FrameBody.parse at h
  simp only [bindDef, pureDef] at h
  rw [bind_ok] at h
  obtain ⟨j, cur, hgi, h⟩ := h
  obtain ⟨rfl, rfl⟩ := getInput_ok.mp hgi
  rw [hp] at h
  rw [if_pos rfl] at h
  split at h
  · rw [bind_ok] at h
    obtain ⟨j1, w, htake, h⟩ := h
    rw [bind_ok] at h
    obtain ⟨j2, src2, hgi2, h⟩ := h
    obtain ⟨rfl, rfl⟩ := getInput_ok.mp hgi2
    obtain ⟨rfl, rfl⟩ := pure_ok.mp h
    rfl
  · obtain ⟨rfl, rfl⟩ := pure_ok.mp h
    rfl

/-- C8: every successfully decoded 802.11 frame whose Frame Control flags
have the protected bit set carries an Encrypted or Empty frame body; no
type-specific body parsing is performed on the protected bytes. -/
theorem c8_protected_body_encrypted_or_empty (i rest : List Nat)
    (f : Dot11.Frame) (h : Dot11.Frame.parse i = .ok rest f)
    (hp : f.fc.flags.protected_flag = 1) :
    encryptedOrEmpty f.frame_body = true := by
  unfold Dot11.Frame.parse at h
  simp only [bindDef, pureDef, bind_ok, pure_ok] at h
  obtain ⟨j1, fc, hfc, j2, dur, hdur, j3, ab, hab, j4, body, hbody, j5, fcs,
    hfcs, hmatch⟩ := h
  obtain ⟨a1, a2, a3, sc, a4⟩ := ab
  simp only [pure_ok] at hmatch
  obtain ⟨rfl, rfl⟩ := hmatch
  exact framebody_protected_cases fc (by simpa using hp) j3 j4 body hbody

/-- C8, witness at the concrete protected extension frame. -/
theorem c8_protected_body_encrypted_or_empty_witness :
    encryptedOrEmpty protectedExtFrame.frame_body = true :=
  c8_protected_body_encrypted_or_empty protectedExtFrameInput []
    protectedExtFrame rfl rfl

/-! Claim C10: the unchecked option index. -/

/-- C10: on every exactly-20-byte input whose data-offset nibble (the high
four bits of byte 12) exceeds 5, the fixed header parses, no bytes remain,
and get_options evaluates the unchecked index i[0] on the empty slice: the
decode panics instead of returning a parse error. -/
theorem c10_tcp_empty_options_panics (b0 b1 b2 b3 b4 b5 b6 b7 b8 b9 b10 b11
    b12 b13 b14 b15 b16 b17 b18 b19 : Nat) (hb : b12 < 256)
    (hoff : 5 < b12 / 16) :
    Tcp.Packet.parse [b0, b1, b2, b3, b4, b5, b6, b7, b8, b9, b10, b11, b12,
      b13, b14, b15, b16, b17, b18, b19] = .panicked := by
  unfold Tcp.Packet.parse
  simp only [bindDef, pureDef, bbindDef, Parse.bind, Parse.pure, beU16, beU32,
    bits, BitParse.bind, BitParse.pure, takeBits, byteBits, natFromBits,
    List.flatMap_cons, List.length_cons, List.length_nil]
  norm_num
  unfold Tcp.Packet.getOpts
  rw [if_pos (by omega)]

/-- C10, witness: the all-zero 20-byte header with byte 12 set to 0x60
(data offset 6) panics. -/
theorem c10_tcp_empty_options_panics_witness :
    Tcp.Packet.parse [0, 0, 0, 0, 0, 0, 0, 0, 0, 0, 0, 0, 0x60, 0, 0, 0, 0,
      0, 0, 0] = .panicked :=
  c10_tcp_empty_options_panics 0 0 0 0 0 0 0 0 0 0 0 0 0x60 0 0 0 0 0 0 0
    (by decide) (by decide)

/-! Claim C7: the consumption invariant.  KeepsRest is proved for every
primitive and combinator and then for every protocol parser by
composition; together with the suffix decomposition this gives the
consumed-plus-remaining length equation. -/

theorem keeps_pure {α : Type} (a : α) : KeepsRest (Parse.pure a) := by
  intro i rest v h
  obtain ⟨rfl, rfl⟩ := pure_ok.mp h
  exact List.suffix_refl _

theorem keeps_bind {α β : Type} {p : Parse α} {f : α → Parse β}
    (hp : KeepsRest p) (hf : ∀ a, KeepsRest (f a)) :
    KeepsRest (Parse.bind p f) := by
  intro i rest v h
  obtain ⟨j, a, h1, h2⟩ := bind_ok.mp h
  exact (hf a j rest v h2).trans (hp i j a h1)

theorem keeps_takeN (n : Nat) : KeepsRest (takeN n) := by
  intro i rest v h
  obtain ⟨hle, rfl, rfl⟩ := takeN_ok.mp h
  exact List.drop_suffix n i

theorem keeps_beU8 : KeepsRest beU8 := by
  intro i rest v h
  rw [beU8_ok.mp h]
  exact (List.drop_suffix 1 (v :: rest))

theorem keeps_beU16 : KeepsRest beU16 := by
  intro i rest v h
  obtain ⟨b0, b1, rfl, rfl⟩ := beU16_ok.mp h
  exact List.drop_suffix 2 (b0 :: b1 :: rest)

theorem keeps_beU32 : KeepsRest beU32 := by
  intro i rest v h
  obtain ⟨b0, b1, b2, b3, rfl, rfl⟩ := beU32_ok.mp h
  exact List.drop_suffix 4 (b0 :: b1 :: b2 :: b3 :: rest)

theorem keeps_leU16 : KeepsRest leU16 := by
  intro i rest v h
  obtain ⟨b0, b1, rfl, rfl⟩ := leU16_ok.mp h
  exact List.drop_suffix 2 (b0 :: b1 :: rest)

theorem keeps_leU32 : KeepsRest leU32 := by
  intro i rest v h
  obtain ⟨b0, b1, b2, b3, rfl, rfl⟩ := leU32_ok.mp h
  exact List.drop_suffix 4 (b0 :: b1 :: b2 :: b3 :: rest)

theorem keeps_leU64 : KeepsRest leU64 := by
  intro i rest v h
  unfold leU64 at h
  match i with
  | [] => cases h
  | [b0] => cases h
  | [b0, b1] => cases h
  | [b0, b1, b2] => cases h
  | [b0, b1, b2, b3] => cases h
  | [b0, b1, b2, b3, b4] => cases h
  | [b0, b1, b2, b3, b4, b5] => cases h
  | [b0, b1, b2, b3, b4, b5, b6] => cases h
  | b0 :: b1 :: b2 :: b3 :: b4 :: b5 :: b6 :: b7 :: t =>
    injection h with h1 h2
    rw [h1.symm]
    exact List.drop_suffix 8 (b0 :: b1 :: b2 :: b3 :: b4 :: b5 :: b6 :: b7 :: t)

theorem keeps_getInput : KeepsRest getInput := by
  intro i rest v h
  obtain ⟨rfl, rfl⟩ := getInput_ok.mp h
  exact List.suffix_refl _

theorem keeps_peek {α : Type} (p : Parse α) : KeepsRest (peek p) := by
  intro i rest v h
  unfold peek at h
  cases hp : p i with
  | ok j a => rw [hp] at h; injection h with h1 h2; rw [h1.symm]
  | err => rw [hp] at h; cases h
  | panicked => rw [hp] at h; cases h

theorem keeps_runOn {α : Type} (j : List Nat) (p : Parse α) :
    KeepsRest (runOn j p) := by
  intro i rest v h
  unfold runOn at h
  cases hp : p j with
  | ok k a => rw [hp] at h; injection h with h1 h2; rw [h1.symm]
  | err => rw [hp] at h; cases h
  | panicked => rw [hp] at h; cases h

theorem keeps_panicked {α : Type} :
    KeepsRest (fun _ => (PResult.panicked : PResult α)) := by
  intro i rest v h
  cases h

theorem bitdrops_pure {α : Type} (a : α) : BitDrops (BitParse.pure a) := by
  intro bs off bs2 off2 v h
  unfold BitParse.pure at h
  injection h with h1 h2
  rw [(Prod.mk.injEq _ _ _ _).mp h1.symm |>.1]

theorem bitdrops_bind {α β : Type} {p : BitParse α} {f : α → BitParse β}
    (hp : BitDrops p) (hf : ∀ a, BitDrops (f a)) :
    BitDrops (BitParse.bind p f) := by
  intro bs off bs2 off2 v h
  unfold BitParse.bind at h
  cases hm : p (bs, off) with
  | ok s2 a =>
    rw [hm] at h
    obtain ⟨bsm, offm⟩ := s2
    exact (hf a bsm offm bs2 off2 v h).trans (hp bs off bsm offm a hm)
  | err => rw [hm] at h; cases h

theorem bitdrops_takeBits (c : Nat) : BitDrops (takeBits c) := by
  intro bs off bs2 off2 v h
  unfold takeBits at h
  dsimp only at h
  split at h
  · cases h
  · injection h with h1 h2
    injection h1 with h3 h4
    rw [h3.symm]
    exact List.drop_suffix _ bs

theorem keeps_bits {α : Type} {p : BitParse α} (hp : BitDrops p) :
    KeepsRest (bits p) := by
  intro i rest v h
  unfold bits at h
  cases hm : p (i, 0) with
  | ok s2 a =>
    obtain ⟨bs, off⟩ := s2
    rw [hm] at h
    injection h with h1 h2
    rw [h1.symm]
    exact (List.drop_suffix _ bs).trans (hp i 0 bs off a hm)
  | err => rw [hm] at h; cases h


theorem keeps_Echo : KeepsRest Icmp.Echo.parse := by
  unfold Icmp.Echo.parse
  simp only [bindDef, pureDef]
  exact keeps_bind keeps_beU16 fun a =>
    keeps_bind keeps_beU16 fun b => keeps_pure _

theorem keeps_IcmpPacket : KeepsRest Icmp.Packet.parse := by
  unfold Icmp.Packet.parse
  simp only [bindDef, pureDef]
  refine keeps_bind keeps_beU8 fun t => keeps_bind keeps_beU8 fun c =>
    keeps_bind (keeps_pure _) fun typ => keeps_bind keeps_beU16
    fun cks => ?_
  cases typ <;>
    first
      | exact keeps_bind keeps_Echo fun e => keeps_bind (keeps_pure _)
          fun y => keeps_bind keeps_getInput fun pl => keeps_pure _
      | exact keeps_bind keeps_beU32 fun w => keeps_bind (keeps_pure _)
          fun y => keeps_bind keeps_getInput fun pl => keeps_pure _

theorem keeps_UdpDatagram : KeepsRest Udp.Datagram.parse := by
  unfold Udp.Datagram.parse
  simp only [bindDef, pureDef]
  exact keeps_bind keeps_beU16 fun a => keeps_bind keeps_beU16 fun b =>
    keeps_bind keeps_beU16 fun c => keeps_bind keeps_beU16 fun d =>
    keeps_bind keeps_getInput fun pl => keeps_pure _

theorem keeps_DataOptions : KeepsRest Tcp.DataOptions.parse := by
  unfold Tcp.DataOptions.parse
  simp only [bindDef, pureDef]
  exact keeps_bind keeps_beU8 fun k => keeps_bind keeps_beU8 fun l =>
    keeps_bind (keeps_takeN l) fun d => keeps_pure _

theorem keeps_NoData : KeepsRest Tcp.NoData.parse := by
  unfold Tcp.NoData.parse
  simp only [bindDef, pureDef]
  exact keeps_bind keeps_beU8 fun k => keeps_pure _

theorem keeps_getOpts (offset : Nat) :
    KeepsRest (Tcp.Packet.getOpts offset) := by
  intro i rest v h
  unfold Tcp.Packet.getOpts at h
  split at h
  · match i, h with
    | [], h => cases h
    | b :: t, h =>
      dsimp only at h
      by_cases hb : b = 0 ∨ b = 1
      · rw [if_pos hb] at h
        exact keeps_bind keeps_NoData (fun o => keeps_pure _) _ _ _ h
      · rw [if_neg hb] at h
        exact keeps_bind keeps_DataOptions (fun o => keeps_pure _) _ _ _ h
  · injection h with h1 h2
    rw [h1.symm]

theorem keeps_TcpPacket : KeepsRest Tcp.Packet.parse := by
  unfold Tcp.Packet.parse
  simp only [bindDef, pureDef, bbindDef]
  refine keeps_bind keeps_beU16 fun a => keeps_bind keeps_beU16 fun b =>
    keeps_bind keeps_beU32 fun c => keeps_bind keeps_beU32 fun d =>
    keeps_bind (keeps_bits ?_) fun fields => ?_
  · exact bitdrops_bind (bitdrops_takeBits 4) fun x1 =>
      bitdrops_bind (bitdrops_takeBits 3) fun x2 =>
      bitdrops_bind (bitdrops_takeBits 1) fun x3 =>
      bitdrops_bind (bitdrops_takeBits 1) fun x4 =>
      bitdrops_bind (bitdrops_takeBits 1) fun x5 =>
      bitdrops_bind (bitdrops_takeBits 1) fun x6 =>
      bitdrops_bind (bitdrops_takeBits 1) fun x7 =>
      bitdrops_bind (bitdrops_takeBits 1) fun x8 =>
      bitdrops_bind (bitdrops_takeBits 1) fun x9 =>
      bitdrops_bind (bitdrops_takeBits 1) fun x10 =>
      bitdrops_bind (bitdrops_takeBits 1) fun x11 => bitdrops_pure _
  · obtain ⟨o, r, ns, cw, ec, ur, ak, ps, rs, sy, fi⟩ := fields
    exact keeps_bind keeps_beU16 fun w => keeps_bind keeps_beU16 fun cs =>
      keeps_bind keeps_beU16 fun up => keeps_bind (keeps_getOpts o) fun op =>
      keeps_bind keeps_getInput fun pl => keeps_pure _

theorem keeps_Protocol : KeepsRest Ip.Protocol.parse := by
  unfold Ip.Protocol.parse
  simp only [bindDef, pureDef]
  exact keeps_bind keeps_beU8 fun b => keeps_pure _

theorem keeps_Ipv4Addr : KeepsRest Ipv4.Addr.parse := by
  unfold Ipv4.Addr.parse
  simp only [bindDef, pureDef]
  exact keeps_bind (keeps_takeN 4) fun s => keeps_pure _

theorem keeps_Ipv6Addr : KeepsRest Ipv6.Addr.parse := by
  unfold Ipv6.Addr.parse
  simp only [bindDef, pureDef]
  exact keeps_bind (keeps_takeN 16) fun s => keeps_pure _

theorem keeps_Ipv4Packet : KeepsRest Ipv4.Packet.parse := by
  unfold Ipv4.Packet.parse
  simp only [bindDef, pureDef, bbindDef]
  refine keeps_bind (keeps_bits ?_) fun vi => keeps_bind (keeps_bits ?_)
    fun de => keeps_bind keeps_beU16 fun len => keeps_bind keeps_beU16
    fun idn => keeps_bind (keeps_bits ?_) fun ff => keeps_bind keeps_beU8
    fun ttl => keeps_bind keeps_Protocol fun proto => keeps_bind keeps_beU16
    fun cks => keeps_bind keeps_Ipv4Addr fun src => keeps_bind keeps_Ipv4Addr
    fun dst => ?_
  · exact bitdrops_bind (bitdrops_takeBits 4) fun x =>
      bitdrops_bind (bitdrops_takeBits 4) fun y => bitdrops_pure _
  · exact bitdrops_bind (bitdrops_takeBits 6) fun x =>
      bitdrops_bind (bitdrops_takeBits 2) fun y => bitdrops_pure _
  · exact bitdrops_bind (bitdrops_takeBits 3) fun x =>
      bitdrops_bind (bitdrops_takeBits 13) fun y => bitdrops_pure _
  · cases proto with
    | none => exact keeps_bind (keeps_pure _) fun y => keeps_pure _
    | some p =>
      cases p <;>
        first
          | exact keeps_bind keeps_TcpPacket fun q =>
              keeps_bind (keeps_pure _) fun y => keeps_pure _
          | exact keeps_bind keeps_UdpDatagram fun q =>
              keeps_bind (keeps_pure _) fun y => keeps_pure _
          | exact keeps_bind keeps_IcmpPacket fun q =>
              keeps_bind (keeps_pure _) fun y => keeps_pure _
          | exact keeps_bind (keeps_pure _) fun y => keeps_pure _

theorem keeps_Ipv6Packet : KeepsRest Ipv6.Packet.parse := by
  unfold Ipv6.Packet.parse
  simp only [bindDef, pureDef, bbindDef]
  refine keeps_bind (keeps_bits ?_) fun vtf => keeps_bind keeps_beU16
    fun len => keeps_bind keeps_Protocol fun proto => keeps_bind keeps_beU8
    fun ttl => keeps_bind keeps_Ipv6Addr fun src => keeps_bind keeps_Ipv6Addr
    fun dst => ?_
  · exact bitdrops_bind (bitdrops_takeBits 4) fun x =>
      bitdrops_bind (bitdrops_takeBits 8) fun y =>
      bitdrops_bind (bitdrops_takeBits 20) fun z => bitdrops_pure _
  · cases proto with
    | none => exact keeps_bind (keeps_pure _) fun y => keeps_pure _
    | some p =>
      cases p <;>
        first
          | exact keeps_bind keeps_TcpPacket fun q =>
              keeps_bind (keeps_pure _) fun y => keeps_pure _
          | exact keeps_bind keeps_UdpDatagram fun q =>
              keeps_bind (keeps_pure _) fun y => keeps_pure _
          | exact keeps_bind keeps_IcmpPacket fun q =>
              keeps_bind (keeps_pure _) fun y => keeps_pure _
          | exact keeps_bind (keeps_pure _) fun y => keeps_pure _


theorem keeps_DlAddr : KeepsRest Datalink.Addr.parse := by
  unfold Datalink.Addr.parse
  simp only [bindDef, pureDef]
  exact keeps_bind (keeps_takeN 6) fun s => keeps_pure _

theorem keeps_EtherType : KeepsRest Datalink.EtherType.parse := by
  unfold Datalink.EtherType.parse
  simp only [bindDef, pureDef]
  exact keeps_bind keeps_beU16 fun v => keeps_pure _

theorem keeps_Operation : KeepsRest Arp.Operation.parse := by
  unfold Arp.Operation.parse
  simp only [bindDef, pureDef]
  exact keeps_bind keeps_beU16 fun v => keeps_pure _

theorem keeps_HardwareType : KeepsRest Arp.HardwareType.parse := by
  unfold Arp.HardwareType.parse
  simp only [bindDef, pureDef]
  exact keeps_bind keeps_beU16 fun v => keeps_pure _

theorem keeps_ArpPacket : KeepsRest Arp.Packet.parse := by
  unfold Arp.Packet.parse
  simp only [bindDef, pureDef]
  exact keeps_bind keeps_HardwareType fun a => keeps_bind keeps_EtherType
    fun b => keeps_bind keeps_beU8 fun c => keeps_bind keeps_beU8 fun d =>
    keeps_bind keeps_Operation fun e => keeps_bind keeps_DlAddr fun f =>
    keeps_bind keeps_Ipv4Addr fun g => keeps_bind keeps_DlAddr fun hh =>
    keeps_bind keeps_Ipv4Addr fun k => keeps_pure _

theorem keeps_EthernetFrame : KeepsRest Ethernet.Frame.parse := by
  unfold Ethernet.Frame.parse
  simp only [bindDef, pureDef]
  refine keeps_bind keeps_DlAddr fun dst => keeps_bind keeps_DlAddr
    fun src => keeps_bind keeps_EtherType fun et => ?_
  cases et with
  | none => exact keeps_bind (keeps_pure _) fun y => keeps_pure _
  | some e =>
    cases e <;>
      first
        | exact keeps_bind keeps_Ipv4Packet fun p =>
            keeps_bind (keeps_pure _) fun y => keeps_pure _
        | exact keeps_bind keeps_Ipv6Packet fun p =>
            keeps_bind (keeps_pure _) fun y => keeps_pure _
        | exact keeps_bind keeps_ArpPacket fun p =>
            keeps_bind (keeps_pure _) fun y => keeps_pure _

theorem keeps_RadioTap : KeepsRest RadioTap.RadioTapHeader.parse := by
  intro i rest v h
  unfold RadioTap.RadioTapHeader.parse at h
  simp only [bindDef, pureDef, bind_ok, pure_ok, getInput_ok, takeN_ok] at h
  obtain ⟨j0, orig, ⟨rfl, rfl⟩, h⟩ := h
  obtain ⟨j1, a1, h1, j2, a2, h2, j3, a3, h3, j4, a4, h4, h⟩ := h
  obtain ⟨j5, u, ⟨rfl, rfl⟩, j6, w, ⟨hlen, rfl, rfl⟩, hrest, hv⟩ := h
  subst hrest
  exact List.drop_suffix _ _


theorem keeps_ControlFlags : KeepsRest Dot11.ControlFlags.parse := by
  unfold Dot11.ControlFlags.parse
  simp only [bindDef, pureDef, bbindDef]
  refine keeps_bind (keeps_bits ?_) fun v => ?_
  · exact bitdrops_bind (bitdrops_takeBits 1) fun x1 =>
      bitdrops_bind (bitdrops_takeBits 1) fun x2 =>
      bitdrops_bind (bitdrops_takeBits 1) fun x3 =>
      bitdrops_bind (bitdrops_takeBits 1) fun x4 =>
      bitdrops_bind (bitdrops_takeBits 1) fun x5 =>
      bitdrops_bind (bitdrops_takeBits 1) fun x6 =>
      bitdrops_bind (bitdrops_takeBits 1) fun x7 =>
      bitdrops_bind (bitdrops_takeBits 1) fun x8 => bitdrops_pure _
  · obtain ⟨a, b, c, d, e, f, g, k⟩ := v
    exact keeps_pure _

theorem keeps_FrameControl : KeepsRest Dot11.FrameControl.parse := by
  unfold Dot11.FrameControl.parse
  simp only [bindDef, pureDef, bbindDef]
  refine keeps_bind (keeps_bits ?_) fun stv =>
    keeps_bind keeps_ControlFlags fun flags => keeps_pure _
  exact bitdrops_bind (bitdrops_takeBits 4) fun x =>
    bitdrops_bind (bitdrops_takeBits 2) fun y =>
    bitdrops_bind (bitdrops_takeBits 2) fun z => bitdrops_pure _

theorem keeps_SeqControl : KeepsRest Dot11.SeqControl.parse := by
  unfold Dot11.SeqControl.parse
  simp only [bindDef, pureDef, bbindDef]
  refine keeps_bind (keeps_bits ?_) fun v => keeps_pure _
  exact bitdrops_bind (bitdrops_takeBits 4) fun x =>
    bitdrops_bind (bitdrops_takeBits 12) fun y => bitdrops_pure _

theorem keeps_reasonCode : KeepsRest Management.reasonCodeParse := by
  unfold Management.reasonCodeParse
  simp only [bindDef, pureDef]
  exact keeps_bind keeps_leU16 fun v => keeps_pure _

theorem keeps_statusCode : KeepsRest Management.statusCodeParse := by
  unfold Management.statusCodeParse
  simp only [bindDef, pureDef]
  exact keeps_bind keeps_leU16 fun v => keeps_pure _

theorem keeps_CapabilityInfo : KeepsRest Management.CapabilityInfo.parse := by
  unfold Management.CapabilityInfo.parse
  simp only [bindDef, pureDef, bbindDef]
  refine keeps_bind (keeps_bits ?_) fun a => keeps_bind (keeps_bits ?_)
    fun b => ?_
  · exact bitdrops_bind (bitdrops_takeBits 1) fun x1 =>
      bitdrops_bind (bitdrops_takeBits 1) fun x2 =>
      bitdrops_bind (bitdrops_takeBits 1) fun x3 =>
      bitdrops_bind (bitdrops_takeBits 1) fun x4 =>
      bitdrops_bind (bitdrops_takeBits 1) fun x5 =>
      bitdrops_bind (bitdrops_takeBits 1) fun x6 =>
      bitdrops_bind (bitdrops_takeBits 1) fun x7 =>
      bitdrops_bind (bitdrops_takeBits 1) fun x8 => bitdrops_pure _
  · exact bitdrops_bind (bitdrops_takeBits 1) fun x1 =>
      bitdrops_bind (bitdrops_takeBits 1) fun x2 =>
      bitdrops_bind (bitdrops_takeBits 1) fun x3 =>
      bitdrops_bind (bitdrops_takeBits 1) fun x4 =>
      bitdrops_bind (bitdrops_takeBits 1) fun x5 =>
      bitdrops_bind (bitdrops_takeBits 1) fun x6 =>
      bitdrops_bind (bitdrops_takeBits 1) fun x7 =>
      bitdrops_bind (bitdrops_takeBits 1) fun x8 => bitdrops_pure _
  · obtain ⟨a1, a2, a3, a4, a5, a6, a7, a8⟩ := a
    obtain ⟨b1, b2, b3, b4, b5, b6, b7, b8⟩ := b
    exact keeps_pure _

theorem keeps_AuthAlgo :
    KeepsRest Management.AuthenticationAlgorithm.parse := by
  unfold Management.AuthenticationAlgorithm.parse
  simp only [bindDef, pureDef]
  exact keeps_bind keeps_leU16 fun v => keeps_pure _

theorem keeps_UnknownElement (id len : Nat) :
    KeepsRest (Management.UnknownElement.parse id len) := by
  unfold Management.UnknownElement.parse
  simp only [bindDef, pureDef]
  exact keeps_bind (keeps_takeN len) fun s => keeps_pure _

theorem keeps_SSID (id len : Nat) :
    KeepsRest (Management.SSID.parse id len) := by
  unfold Management.SSID.parse
  simp only [bindDef, pureDef]
  exact keeps_bind (keeps_takeN len) fun s => keeps_pure _

theorem keeps_SupportedRate : KeepsRest Management.SupportedRate.parse := by
  unfold Management.SupportedRate.parse
  simp only [bindDef, pureDef, bbindDef]
  refine keeps_bind (keeps_bits ?_) fun v => keeps_pure _
  exact bitdrops_bind (bitdrops_takeBits 7) fun x =>
    bitdrops_bind (bitdrops_takeBits 1) fun y => bitdrops_pure _

theorem keeps_SupportedRates (id len : Nat) :
    KeepsRest (Management.SupportedRates.parse id len) := by
  unfold Management.SupportedRates.parse
  simp only [bindDef, pureDef]
  exact keeps_bind (keeps_takeN len) fun w =>
    keeps_bind (keeps_runOn w _) fun r => keeps_pure _

theorem keeps_FHParamSet (id len : Nat) :
    KeepsRest (Management.FHParamSet.parse id len) := by
  unfold Management.FHParamSet.parse
  simp only [bindDef, pureDef]
  exact keeps_bind keeps_leU16 fun a => keeps_bind keeps_beU8 fun b =>
    keeps_bind keeps_beU8 fun c => keeps_bind keeps_beU8 fun d =>
    keeps_pure _

theorem keeps_DSParamSet (id len : Nat) :
    KeepsRest (Management.DSParamSet.parse id len) := by
  unfold Management.DSParamSet.parse
  simp only [bindDef, pureDef]
  exact keeps_bind keeps_beU8 fun a => keeps_pure _

theorem keeps_IBSSParamSet (id len : Nat) :
    KeepsRest (Management.IBSSParamSet.parse id len) := by
  unfold Management.IBSSParamSet.parse
  simp only [bindDef, pureDef]
  exact keeps_bind keeps_leU16 fun a => keeps_pure _

theorem keeps_CountryTriplet :
    KeepsRest Management.CountryConstraintTriplet.parse := by
  unfold Management.CountryConstraintTriplet.parse
  simp only [bindDef, pureDef]
  exact keeps_bind keeps_beU8 fun a => keeps_bind keeps_beU8 fun b =>
    keeps_bind keeps_beU8 fun c => keeps_pure _

theorem keeps_Country (id len : Nat) :
    KeepsRest (Management.Country.parse id len) := by
  unfold Management.Country.parse
  simp only [bindDef, pureDef]
  refine keeps_bind (keeps_takeN 3) fun cs => ?_
  split
  · exact keeps_bind (keeps_takeN _) fun w =>
      keeps_bind (keeps_runOn w _) fun r => keeps_pure _
  · exact keeps_panicked

theorem keeps_TIM (id len : Nat) :
    KeepsRest (Management.TrafficIndicationMap.parse id len) := by
  unfold Management.TrafficIndicationMap.parse
  simp only [bindDef, pureDef]
  exact keeps_bind keeps_beU8 fun a => keeps_bind keeps_beU8 fun b =>
    keeps_bind keeps_beU8 fun c => keeps_bind (keeps_takeN _) fun w =>
    keeps_pure _

theorem keeps_RequestElement (id len : Nat) :
    KeepsRest (Management.RequestElement.parse id len) := by
  unfold Management.RequestElement.parse
  simp only [bindDef, pureDef]
  exact keeps_bind (keeps_takeN len) fun s => keeps_pure _

theorem keeps_ChallengeText (id len : Nat) :
    KeepsRest (Management.ChallengeText.parse id len) := by
  unfold Management.ChallengeText.parse
  simp only [bindDef, pureDef]
  refine keeps_bind (keeps_takeN len) fun s => ?_
  split
  · exact keeps_pure _
  · exact keeps_panicked

theorem keeps_PowerConstraint (id len : Nat) :
    KeepsRest (Management.PowerConstraint.parse id len) := by
  unfold Management.PowerConstraint.parse
  simp only [bindDef, pureDef]
  exact keeps_bind keeps_beU8 fun a => keeps_pure _

theorem keeps_TPCReport (id len : Nat) :
    KeepsRest (Management.TPCReport.parse id len) := by
  unfold Management.TPCReport.parse
  simp only [bindDef, pureDef]
  exact keeps_bind keeps_beU8 fun a => keeps_bind keeps_beU8 fun b =>
    keeps_pure _

theorem keeps_SupportedChannels (id len : Nat) :
    KeepsRest (Management.SupportedChannelsElement.parse id len) := by
  unfold Management.SupportedChannelsElement.parse
  simp only [bindDef, pureDef]
  exact keeps_bind keeps_beU8 fun a => keeps_bind keeps_beU8 fun b =>
    keeps_pure _

theorem keeps_ChannelSwitch (id len : Nat) :
    KeepsRest (Management.ChannelSwitchAnnouncement.parse id len) := by
  unfold Management.ChannelSwitchAnnouncement.parse
  simp only [bindDef, pureDef]
  exact keeps_bind keeps_beU8 fun a => keeps_bind keeps_beU8 fun b =>
    keeps_bind keeps_beU8 fun c => keeps_pure _

theorem keeps_Quiet (id len : Nat) :
    KeepsRest (Management.QuietElement.parse id len) := by
  unfold Management.QuietElement.parse
  simp only [bindDef, pureDef]
  exact keeps_bind keeps_beU8 fun a => keeps_bind keeps_beU8 fun b =>
    keeps_bind keeps_leU16 fun c => keeps_bind keeps_leU16 fun d =>
    keeps_pure _

theorem keeps_ChannelMap : KeepsRest Management.IBSSDFSChannelMap.parse := by
  unfold Management.IBSSDFSChannelMap.parse
  simp only [bindDef, pureDef, bbindDef]
  refine keeps_bind (keeps_bits ?_) fun v => ?_
  · exact bitdrops_bind (bitdrops_takeBits 1) fun x1 =>
      bitdrops_bind (bitdrops_takeBits 1) fun x2 =>
      bitdrops_bind (bitdrops_takeBits 1) fun x3 =>
      bitdrops_bind (bitdrops_takeBits 1) fun x4 =>
      bitdrops_bind (bitdrops_takeBits 1) fun x5 => bitdrops_pure _
  · obtain ⟨a, b, c, d, e⟩ := v
    exact keeps_pure _

theorem keeps_ChannelTuple :
    KeepsRest Management.IBSSDFSChannelTuple.parse := by
  unfold Management.IBSSDFSChannelTuple.parse
  simp only [bindDef, pureDef]
  exact keeps_bind keeps_beU8 fun a => keeps_bind keeps_ChannelMap fun b =>
    keeps_pure _

theorem keeps_IBSSDFS (id len : Nat) :
    KeepsRest (Management.IBSSDFS.parse id len) := by
  unfold Management.IBSSDFS.parse
  simp only [bindDef, pureDef]
  exact keeps_bind keeps_DlAddr fun a => keeps_bind keeps_beU8 fun b =>
    keeps_bind (keeps_takeN _) fun w => keeps_bind (keeps_runOn w _)
    fun r => keeps_pure _

theorem keeps_ERPInfo (id len : Nat) :
    KeepsRest (Management.ERPInfo.parse id len) := by
  unfold Management.ERPInfo.parse
  simp only [bindDef, pureDef, bbindDef]
  refine keeps_bind (keeps_bits ?_) fun v => keeps_pure _
  exact bitdrops_bind (bitdrops_takeBits 1) fun x1 =>
    bitdrops_bind (bitdrops_takeBits 1) fun x2 =>
    bitdrops_bind (bitdrops_takeBits 1) fun x3 => bitdrops_pure _

theorem keeps_Element : KeepsRest Management.Element.parse := by
  unfold Management.Element.parse
  simp only [bindDef, pureDef]
  refine keeps_bind keeps_beU8 fun id => keeps_bind keeps_beU8 fun len => ?_
  intro i rest v h
  split at h <;>
    first
      | exact keeps_bind (keeps_SSID _ len) (fun e => keeps_pure _) _ _ _ h
      | exact keeps_bind (keeps_SupportedRates _ len) (fun e => keeps_pure _)
          _ _ _ h
      | exact keeps_bind (keeps_FHParamSet _ len) (fun e => keeps_pure _)
          _ _ _ h
      | exact keeps_bind (keeps_DSParamSet _ len) (fun e => keeps_pure _)
          _ _ _ h
      | exact keeps_bind (keeps_TIM _ len) (fun e => keeps_pure _) _ _ _ h
      | exact keeps_bind (keeps_IBSSParamSet _ len) (fun e => keeps_pure _)
          _ _ _ h
      | exact keeps_bind (keeps_Country _ len) (fun e => keeps_pure _) _ _ _ h
      | exact keeps_bind (keeps_RequestElement _ len) (fun e => keeps_pure _)
          _ _ _ h
      | exact keeps_bind (keeps_ChallengeText _ len) (fun e => keeps_pure _)
          _ _ _ h
      | exact keeps_bind (keeps_PowerConstraint _ len) (fun e => keeps_pure _)
          _ _ _ h
      | exact keeps_bind (keeps_TPCReport _ len) (fun e => keeps_pure _)
          _ _ _ h
      | exact keeps_bind (keeps_SupportedChannels _ len)
          (fun e => keeps_pure _) _ _ _ h
      | exact keeps_bind (keeps_ChannelSwitch _ len) (fun e => keeps_pure _)
          _ _ _ h
      | exact keeps_bind (keeps_Quiet _ len) (fun e => keeps_pure _) _ _ _ h
      | exact keeps_bind (keeps_IBSSDFS _ len) (fun e => keeps_pure _) _ _ _ h
      | exact keeps_bind (keeps_ERPInfo _ len) (fun e => keeps_pure _) _ _ _ h
      | exact keeps_bind (keeps_UnknownElement _ len) (fun e => keeps_pure _)
          _ _ _ h


theorem keeps_parseOptionalFields :
    KeepsRest Management.Element.parseOptionalFields := by
  unfold Management.Element.parseOptionalFields
  simp only [bindDef, pureDef]
  exact keeps_bind keeps_getInput fun cur => keeps_bind (keeps_takeN _)
    fun w => keeps_bind (keeps_runOn w _) fun r => keeps_pure _

theorem keeps_Beacon : KeepsRest Management.BeaconFrameBody.parse := by
  unfold Management.BeaconFrameBody.parse
  simp only [bindDef, pureDef]
  exact keeps_bind keeps_leU64 fun a => keeps_bind keeps_leU16 fun b =>
    keeps_bind keeps_CapabilityInfo fun c =>
    keeps_bind keeps_parseOptionalFields fun d => keeps_pure _

theorem keeps_ProbeRequest :
    KeepsRest Management.ProbeRequestFrameBody.parse := by
  unfold Management.ProbeRequestFrameBody.parse
  simp only [bindDef, pureDef]
  exact keeps_bind keeps_Element fun a => keeps_bind keeps_Element fun b =>
    keeps_bind keeps_Element fun c => keeps_pure _

theorem keeps_ProbeResponse :
    KeepsRest Management.ProbeResponseFrameBody.parse := by
  unfold Management.ProbeResponseFrameBody.parse
  simp only [bindDef, pureDef]
  exact keeps_bind keeps_leU64 fun a => keeps_bind keeps_leU16 fun b =>
    keeps_bind keeps_CapabilityInfo fun c =>
    keeps_bind keeps_parseOptionalFields fun d => keeps_pure _

theorem keeps_AssocRequest :
    KeepsRest Management.AssociationRequestFrameBody.parse := by
  unfold Management.AssociationRequestFrameBody.parse
  simp only [bindDef, pureDef]
  exact keeps_bind keeps_CapabilityInfo fun a => keeps_bind keeps_leU16
    fun b => keeps_bind keeps_Element fun c => keeps_bind keeps_Element
    fun d => keeps_pure _

theorem keeps_ReassocRequest :
    KeepsRest Management.ReassociationRequestFrameBody.parse := by
  unfold Management.ReassociationRequestFrameBody.parse
  simp only [bindDef, pureDef]
  exact keeps_bind keeps_CapabilityInfo fun a => keeps_bind keeps_leU16
    fun b => keeps_bind keeps_DlAddr fun c => keeps_bind keeps_Element
    fun d => keeps_bind keeps_Element fun e => keeps_pure _

theorem keeps_AssocResponse :
    KeepsRest Management.AssociationResponseFrameBody.parse := by
  unfold Management.AssociationResponseFrameBody.parse
  simp only [bindDef, pureDef]
  exact keeps_bind keeps_CapabilityInfo fun a => keeps_bind keeps_statusCode
    fun b => keeps_bind keeps_leU16 fun c => keeps_bind keeps_Element
    fun d => keeps_pure _

theorem keeps_Authentication :
    KeepsRest Management.AuthenticationFrameBody.parse := by
  unfold Management.AuthenticationFrameBody.parse
  simp only [bindDef, pureDef]
  exact keeps_bind keeps_AuthAlgo fun a => keeps_bind keeps_leU16 fun b =>
    keeps_bind keeps_statusCode fun c => keeps_bind keeps_Element fun d =>
    keeps_pure _

theorem keeps_Deauthentication :
    KeepsRest Management.DeauthenticationFrameBody.parse := by
  unfold Management.DeauthenticationFrameBody.parse
  simp only [bindDef, pureDef]
  exact keeps_bind keeps_reasonCode fun a => keeps_pure _

theorem keeps_DataFrameBody : KeepsRest WifiData.DataFrameBody.parse := by
  intro i rest v h
  unfold WifiData.DataFrameBody.parse at h
  injection h with h1 h2
  rw [h1.symm]

theorem keeps_FrameBody (fc : Dot11.FrameControl) :
    KeepsRest (Dot11.FrameBody.parse fc) := by
  obtain ⟨ver, typ, st, flags⟩ := fc
  obtain ⟨td, fd, mf, rt, pm, md, pr, og⟩ := flags
  unfold Dot11.FrameBody.parse
  simp only [bindDef, pureDef]
  refine keeps_bind keeps_getInput fun cur => ?_
  intro i rest v h
  by_cases hp : pr = 1
  · rw [if_pos hp] at h
    by_cases hl : 4 ≤ cur.length
    · rw [if_pos hl] at h
      exact (keeps_bind (keeps_takeN _) fun w => keeps_bind keeps_getInput
        fun bl => keeps_pure _) _ _ _ h
    · rw [if_neg hl] at h
      obtain ⟨rfl, rfl⟩ := pure_ok.mp h
      exact List.suffix_refl _
  · rw [if_neg hp] at h
    cases typ with
    | Management =>
      dsimp only at h
      cases st with
      | AssociationRequest =>
        dsimp only at h
        exact (keeps_bind keeps_AssocRequest fun b => keeps_pure _) _ _ _ h
      | AssociationResponse =>
        dsimp only at h
        exact (keeps_bind keeps_AssocResponse fun b => keeps_pure _) _ _ _ h
      | ReassociationRequest =>
        dsimp only at h
        exact (keeps_bind keeps_ReassocRequest fun b => keeps_pure _) _ _ _ h
      | ReassociationResponse =>
        dsimp only at h
        exact (keeps_bind keeps_AssocResponse fun b => keeps_pure _) _ _ _ h
      | ProbeRequest =>
        dsimp only at h
        exact (keeps_bind keeps_ProbeRequest fun b => keeps_pure _) _ _ _ h
      | ProbeResponse =>
        dsimp only at h
        exact (keeps_bind keeps_ProbeResponse fun b => keeps_pure _) _ _ _ h
      | TimingAdvertisement =>
        dsimp only at h; obtain ⟨rfl, rfl⟩ := pure_ok.mp h; exact List.suffix_refl _
      | Reserved1 =>
        dsimp only at h; obtain ⟨rfl, rfl⟩ := pure_ok.mp h; exact List.suffix_refl _
      | Beacon =>
        dsimp only at h
        exact (keeps_bind keeps_Beacon fun b => keeps_pure _) _ _ _ h
      | ATIM =>
        dsimp only at h; obtain ⟨rfl, rfl⟩ := pure_ok.mp h; exact List.suffix_refl _
      | Disassociation =>
        dsimp only at h
        exact (keeps_bind keeps_Deauthentication fun b => keeps_pure _) _ _ _ h
      | Authentication =>
        dsimp only at h
        exact (keeps_bind keeps_Authentication fun b => keeps_pure _) _ _ _ h
      | Deauthentication =>
        dsimp only at h
        exact (keeps_bind keeps_Deauthentication fun b => keeps_pure _) _ _ _ h
      | Action =>
        dsimp only at h; obtain ⟨rfl, rfl⟩ := pure_ok.mp h; exact List.suffix_refl _
      | NACK =>
        dsimp only at h; obtain ⟨rfl, rfl⟩ := pure_ok.mp h; exact List.suffix_refl _
      | Reserved2 =>
        dsimp only at h; obtain ⟨rfl, rfl⟩ := pure_ok.mp h; exact List.suffix_refl _
      | Reserved3 =>
        dsimp only at h; obtain ⟨rfl, rfl⟩ := pure_ok.mp h; exact List.suffix_refl _
      | Trigger =>
        dsimp only at h; obtain ⟨rfl, rfl⟩ := pure_ok.mp h; exact List.suffix_refl _
      | BeamformingReportPoll =>
        dsimp only at h; obtain ⟨rfl, rfl⟩ := pure_ok.mp h; exact List.suffix_refl _
      | VHT_OR_HE_NDP_Announcement =>
        dsimp only at h; obtain ⟨rfl, rfl⟩ := pure_ok.mp h; exact List.suffix_refl _
      | ControlFrameExtension =>
        dsimp only at h; obtain ⟨rfl, rfl⟩ := pure_ok.mp h; exact List.suffix_refl _
      | ControlWrapper =>
        dsimp only at h; obtain ⟨rfl, rfl⟩ := pure_ok.mp h; exact List.suffix_refl _
      | BAR =>
        dsimp only at h; obtain ⟨rfl, rfl⟩ := pure_ok.mp h; exact List.suffix_refl _
      | BA =>
        dsimp only at h; obtain ⟨rfl, rfl⟩ := pure_ok.mp h; exact List.suffix_refl _
      | PSPoll =>
        dsimp only at h; obtain ⟨rfl, rfl⟩ := pure_ok.mp h; exact List.suffix_refl _
      | RequestToSend =>
        dsimp only at h; obtain ⟨rfl, rfl⟩ := pure_ok.mp h; exact List.suffix_refl _
      | ClearToSend =>
        dsimp only at h; obtain ⟨rfl, rfl⟩ := pure_ok.mp h; exact List.suffix_refl _
      | ACK =>
        dsimp only at h; obtain ⟨rfl, rfl⟩ := pure_ok.mp h; exact List.suffix_refl _
      | CFEnd =>
        dsimp only at h; obtain ⟨rfl, rfl⟩ := pure_ok.mp h; exact List.suffix_refl _
      | CFEnd_And_CFAck =>
        dsimp only at h; obtain ⟨rfl, rfl⟩ := pure_ok.mp h; exact List.suffix_refl _
      | Data =>
        dsimp only at h; obtain ⟨rfl, rfl⟩ := pure_ok.mp h; exact List.suffix_refl _
      | Data_And_CFAck =>
        dsimp only at h; obtain ⟨rfl, rfl⟩ := pure_ok.mp h; exact List.suffix_refl _
      | Data_And_CFPoll =>
        dsimp only at h; obtain ⟨rfl, rfl⟩ := pure_ok.mp h; exact List.suffix_refl _
      | Data_And_CFAck_And_CFPoll =>
        dsimp only at h; obtain ⟨rfl, rfl⟩ := pure_ok.mp h; exact List.suffix_refl _
      | Null =>
        dsimp only at h; obtain ⟨rfl, rfl⟩ := pure_ok.mp h; exact List.suffix_refl _
      | CFAck_NoData =>
        dsimp only at h; obtain ⟨rfl, rfl⟩ := pure_ok.mp h; exact List.suffix_refl _
      | CFPoll_NoData =>
        dsimp only at h; obtain ⟨rfl, rfl⟩ := pure_ok.mp h; exact List.suffix_refl _
      | CFAck_And_CFPoll_NoData =>
        dsimp only at h; obtain ⟨rfl, rfl⟩ := pure_ok.mp h; exact List.suffix_refl _
      | QoSData =>
        dsimp only at h; obtain ⟨rfl, rfl⟩ := pure_ok.mp h; exact List.suffix_refl _
      | QoSData_And_CFAck =>
        dsimp only at h; obtain ⟨rfl, rfl⟩ := pure_ok.mp h; exact List.suffix_refl _
      | QoSData_And_CFPoll =>
        dsimp only at h; obtain ⟨rfl, rfl⟩ := pure_ok.mp h; exact List.suffix_refl _
      | QoSData_And_CFAck_And_CFPoll =>
        dsimp only at h; obtain ⟨rfl, rfl⟩ := pure_ok.mp h; exact List.suffix_refl _
      | QoSNull =>
        dsimp only at h; obtain ⟨rfl, rfl⟩ := pure_ok.mp h; exact List.suffix_refl _
      | Reserved4 =>
        dsimp only at h; obtain ⟨rfl, rfl⟩ := pure_ok.mp h; exact List.suffix_refl _
      | QoS_CFPoll =>
        dsimp only at h; obtain ⟨rfl, rfl⟩ := pure_ok.mp h; exact List.suffix_refl _
      | QoS_CFAck_And_CFPoll =>
        dsimp only at h; obtain ⟨rfl, rfl⟩ := pure_ok.mp h; exact List.suffix_refl _
      | DMGBeacon =>
        dsimp only at h; obtain ⟨rfl, rfl⟩ := pure_ok.mp h; exact List.suffix_refl _
      | Reserved5 =>
        dsimp only at h; obtain ⟨rfl, rfl⟩ := pure_ok.mp h; exact List.suffix_refl _
      | Unknown =>
        dsimp only at h; obtain ⟨rfl, rfl⟩ := pure_ok.mp h; exact List.suffix_refl _
    | Data =>
      dsimp only at h
      cases st with
      | AssociationRequest =>
        dsimp only at h; obtain ⟨rfl, rfl⟩ := pure_ok.mp h; exact List.suffix_refl _
      | AssociationResponse =>
        dsimp only at h; obtain ⟨rfl, rfl⟩ := pure_ok.mp h; exact List.suffix_refl _
      | ReassociationRequest =>
        dsimp only at h; obtain ⟨rfl, rfl⟩ := pure_ok.mp h; exact List.suffix_refl _
      | ReassociationResponse =>
        dsimp only at h; obtain ⟨rfl, rfl⟩ := pure_ok.mp h; exact List.suffix_refl _
      | ProbeRequest =>
        dsimp only at h; obtain ⟨rfl, rfl⟩ := pure_ok.mp h; exact List.suffix_refl _
      | ProbeResponse =>
        dsimp only at h; obtain ⟨rfl, rfl⟩ := pure_ok.mp h; exact List.suffix_refl _
      | TimingAdvertisement =>
        dsimp only at h; obtain ⟨rfl, rfl⟩ := pure_ok.mp h; exact List.suffix_refl _
      | Reserved1 =>
        dsimp only at h; obtain ⟨rfl, rfl⟩ := pure_ok.mp h; exact List.suffix_refl _
      | Beacon =>
        dsimp only at h; obtain ⟨rfl, rfl⟩ := pure_ok.mp h; exact List.suffix_refl _
      | ATIM =>
        dsimp only at h; obtain ⟨rfl, rfl⟩ := pure_ok.mp h; exact List.suffix_refl _
      | Disassociation =>
        dsimp only at h; obtain ⟨rfl, rfl⟩ := pure_ok.mp h; exact List.suffix_refl _
      | Authentication =>
        dsimp only at h; obtain ⟨rfl, rfl⟩ := pure_ok.mp h; exact List.suffix_refl _
      | Deauthentication =>
        dsimp only at h; obtain ⟨rfl, rfl⟩ := pure_ok.mp h; exact List.suffix_refl _
      | Action =>
        dsimp only at h; obtain ⟨rfl, rfl⟩ := pure_ok.mp h; exact List.suffix_refl _
      | NACK =>
        dsimp only at h; obtain ⟨rfl, rfl⟩ := pure_ok.mp h; exact List.suffix_refl _
      | Reserved2 =>
        dsimp only at h; obtain ⟨rfl, rfl⟩ := pure_ok.mp h; exact List.suffix_refl _
      | Reserved3 =>
        dsimp only at h; obtain ⟨rfl, rfl⟩ := pure_ok.mp h; exact List.suffix_refl _
      | Trigger =>
        dsimp only at h; obtain ⟨rfl, rfl⟩ := pure_ok.mp h; exact List.suffix_refl _
      | BeamformingReportPoll =>
        dsimp only at h; obtain ⟨rfl, rfl⟩ := pure_ok.mp h; exact List.suffix_refl _
      | VHT_OR_HE_NDP_Announcement =>
        dsimp only at h; obtain ⟨rfl, rfl⟩ := pure_ok.mp h; exact List.suffix_refl _
      | ControlFrameExtension =>
        dsimp only at h; obtain ⟨rfl, rfl⟩ := pure_ok.mp h; exact List.suffix_refl _
      | ControlWrapper =>
        dsimp only at h; obtain ⟨rfl, rfl⟩ := pure_ok.mp h; exact List.suffix_refl _
      | BAR =>
        dsimp only at h; obtain ⟨rfl, rfl⟩ := pure_ok.mp h; exact List.suffix_refl _
      | BA =>
        dsimp only at h; obtain ⟨rfl, rfl⟩ := pure_ok.mp h; exact List.suffix_refl _
      | PSPoll =>
        dsimp only at h; obtain ⟨rfl, rfl⟩ := pure_ok.mp h; exact List.suffix_refl _
      | RequestToSend =>
        dsimp only at h; obtain ⟨rfl, rfl⟩ := pure_ok.mp h; exact List.suffix_refl _
      | ClearToSend =>
        dsimp only at h; obtain ⟨rfl, rfl⟩ := pure_ok.mp h; exact List.suffix_refl _
      | ACK =>
        dsimp only at h; obtain ⟨rfl, rfl⟩ := pure_ok.mp h; exact List.suffix_refl _
      | CFEnd =>
        dsimp only at h; obtain ⟨rfl, rfl⟩ := pure_ok.mp h; exact List.suffix_refl _
      | CFEnd_And_CFAck =>
        dsimp only at h; obtain ⟨rfl, rfl⟩ := pure_ok.mp h; exact List.suffix_refl _
      | Data =>
        dsimp only at h
        exact (keeps_bind keeps_DataFrameBody fun b => keeps_pure _) _ _ _ h
      | Data_And_CFAck =>
        dsimp only at h
        exact (keeps_bind keeps_DataFrameBody fun b => keeps_pure _) _ _ _ h
      | Data_And_CFPoll =>
        dsimp only at h
        exact (keeps_bind keeps_DataFrameBody fun b => keeps_pure _) _ _ _ h
      | Data_And_CFAck_And_CFPoll =>
        dsimp only at h
        exact (keeps_bind keeps_DataFrameBody fun b => keeps_pure _) _ _ _ h
      | Null =>
        dsimp only at h; obtain ⟨rfl, rfl⟩ := pure_ok.mp h; exact List.suffix_refl _
      | CFAck_NoData =>
        dsimp only at h; obtain ⟨rfl, rfl⟩ := pure_ok.mp h; exact List.suffix_refl _
      | CFPoll_NoData =>
        dsimp only at h; obtain ⟨rfl, rfl⟩ := pure_ok.mp h; exact List.suffix_refl _
      | CFAck_And_CFPoll_NoData =>
        dsimp only at h; obtain ⟨rfl, rfl⟩ := pure_ok.mp h; exact List.suffix_refl _
      | QoSData =>
        dsimp only at h
        exact (keeps_bind keeps_DataFrameBody fun b => keeps_pure _) _ _ _ h
      | QoSData_And_CFAck =>
        dsimp only at h
        exact (keeps_bind keeps_DataFrameBody fun b => keeps_pure _) _ _ _ h
      | QoSData_And_CFPoll =>
        dsimp only at h
        exact (keeps_bind keeps_DataFrameBody fun b => keeps_pure _) _ _ _ h
      | QoSData_And_CFAck_And_CFPoll =>
        dsimp only at h
        exact (keeps_bind keeps_DataFrameBody fun b => keeps_pure _) _ _ _ h
      | QoSNull =>
        dsimp only at h; obtain ⟨rfl, rfl⟩ := pure_ok.mp h; exact List.suffix_refl _
      | Reserved4 =>
        dsimp only at h; obtain ⟨rfl, rfl⟩ := pure_ok.mp h; exact List.suffix_refl _
      | QoS_CFPoll =>
        dsimp only at h; obtain ⟨rfl, rfl⟩ := pure_ok.mp h; exact List.suffix_refl _
      | QoS_CFAck_And_CFPoll =>
        dsimp only at h; obtain ⟨rfl, rfl⟩ := pure_ok.mp h; exact List.suffix_refl _
      | DMGBeacon =>
        dsimp only at h; obtain ⟨rfl, rfl⟩ := pure_ok.mp h; exact List.suffix_refl _
      | Reserved5 =>
        dsimp only at h; obtain ⟨rfl, rfl⟩ := pure_ok.mp h; exact List.suffix_refl _
      | Unknown =>
        dsimp only at h; obtain ⟨rfl, rfl⟩ := pure_ok.mp h; exact List.suffix_refl _
    | Control =>
      dsimp only at h; obtain ⟨rfl, rfl⟩ := pure_ok.mp h; exact List.suffix_refl _
    | Extension =>
      dsimp only at h; obtain ⟨rfl, rfl⟩ := pure_ok.mp h; exact List.suffix_refl _

theorem keeps_parseAddr (fc : Dot11.FrameControl) :
    KeepsRest (Dot11.Frame.parseAddr fc) := by
  obtain ⟨ver, typ, st, flags⟩ := fc
  obtain ⟨td, fd, mf, rt, pm, md, pr, og⟩ := flags
  unfold Dot11.Frame.parseAddr
  simp only [bindDef, pureDef]
  intro i rest v h
  cases typ <;> try dsimp only at h
  case Data =>
    refine (keeps_bind keeps_DlAddr fun a1 => keeps_bind keeps_DlAddr
      fun a2 => keeps_bind keeps_DlAddr fun a3 =>
      keeps_bind keeps_SeqControl fun sc => ?_) _ _ _ h
    intro i2 rest2 v2 h2
    try dsimp only at h2
    by_cases h00 : td = 0 ∧ fd = 0
    · rw [if_pos h00] at h2
      obtain ⟨rfl, rfl⟩ := pure_ok.mp h2
      exact List.suffix_refl _
    · rw [if_neg h00] at h2
      by_cases h10 : td = 1 ∧ fd = 0
      · rw [if_pos h10] at h2
        obtain ⟨rfl, rfl⟩ := pure_ok.mp h2
        exact List.suffix_refl _
      · rw [if_neg h10] at h2
        by_cases h01 : td = 0 ∧ fd = 1
        · rw [if_pos h01] at h2
          obtain ⟨rfl, rfl⟩ := pure_ok.mp h2
          exact List.suffix_refl _
        · rw [if_neg h01] at h2
          exact (keeps_bind keeps_DlAddr fun a4 => keeps_pure _) _ _ _ h2
  case Control =>
    cases st <;> try dsimp only at h
    all_goals
      first
        | exact (keeps_bind keeps_DlAddr fun a1 => keeps_bind keeps_DlAddr
            fun a2 => keeps_pure _) _ _ _ h
        | exact (keeps_bind keeps_DlAddr fun a1 => keeps_pure _) _ _ _ h
  case Management =>
    exact (keeps_bind keeps_DlAddr fun a1 => keeps_bind keeps_DlAddr
      fun a2 => keeps_bind keeps_DlAddr fun a3 =>
      keeps_bind keeps_SeqControl fun sc => keeps_pure _) _ _ _ h
  case Extension =>
    exact (keeps_bind keeps_DlAddr fun a1 => keeps_pure _) _ _ _ h

theorem keeps_Dot11Frame : KeepsRest Dot11.Frame.parse := by
  unfold Dot11.Frame.parse
  simp only [bindDef, pureDef]
  refine keeps_bind keeps_FrameControl fun fc => keeps_bind keeps_leU16
    fun dur => keeps_bind (keeps_parseAddr fc) fun ab =>
    keeps_bind (keeps_FrameBody fc) fun body => keeps_bind keeps_leU32
    fun fcs => ?_
  obtain ⟨a1, a2, a3, sc, a4⟩ := ab
  exact keeps_pure _



theorem suffix_split {rest i : List Nat} (h : rest <:+ i) :
    ∃ consumed, consumed ++ rest = i ∧
      consumed.length + rest.length = i.length := by
  obtain ⟨c, hc⟩ := h
  refine ⟨c, hc, ?_⟩
  rw [hc.symm]
  simp

/-- C7: for each of the nine protocol parsers, a successful parse splits the
input into the consumed bytes followed by the returned remaining input, so
the number of consumed bytes plus the length of the remaining input equals
the length of the input. -/
theorem c7_consumed_plus_remaining :
    (∀ i rest (v : Ethernet.Frame), Ethernet.Frame.parse i = .ok rest v →
      ∃ consumed, consumed ++ rest = i ∧
        consumed.length + rest.length = i.length) ∧
    (∀ i rest (v : Arp.Packet), Arp.Packet.parse i = .ok rest v →
      ∃ consumed, consumed ++ rest = i ∧
        consumed.length + rest.length = i.length) ∧
    (∀ i rest (v : Ipv4.Packet), Ipv4.Packet.parse i = .ok rest v →
      ∃ consumed, consumed ++ rest = i ∧
        consumed.length + rest.length = i.length) ∧
    (∀ i rest (v : Ipv6.Packet), Ipv6.Packet.parse i = .ok rest v →
      ∃ consumed, consumed ++ rest = i ∧
        consumed.length + rest.length = i.length) ∧
    (∀ i rest (v : Tcp.Packet), Tcp.Packet.parse i = .ok rest v →
      ∃ consumed, consumed ++ rest = i ∧
        consumed.length + rest.length = i.length) ∧
    (∀ i rest (v : Udp.Datagram), Udp.Datagram.parse i = .ok rest v →
      ∃ consumed, consumed ++ rest = i ∧
        consumed.length + rest.length = i.length) ∧
    (∀ i rest (v : Icmp.Packet), Icmp.Packet.parse i = .ok rest v →
      ∃ consumed, consumed ++ rest = i ∧
        consumed.length + rest.length = i.length) ∧
    (∀ i rest (v : RadioTap.RadioTapHeader),
      RadioTap.RadioTapHeader.parse i = .ok rest v →
      ∃ consumed, consumed ++ rest = i ∧
        consumed.length + rest.length = i.length) ∧
    (∀ i rest (v : Dot11.Frame), Dot11.Frame.parse i = .ok rest v →
      ∃ consumed, consumed ++ rest = i ∧
        consumed.length + rest.length = i.length) :=
  ⟨fun i rest v h => suffix_split (keeps_EthernetFrame i rest v h),
   fun i rest v h => suffix_split (keeps_ArpPacket i rest v h),
   fun i rest v h => suffix_split (keeps_Ipv4Packet i rest v h),
   fun i rest v h => suffix_split (keeps_Ipv6Packet i rest v h),
   fun i rest v h => suffix_split (keeps_TcpPacket i rest v h),
   fun i rest v h => suffix_split (keeps_UdpDatagram i rest v h),
   fun i rest v h => suffix_split (keeps_IcmpPacket i rest v h),
   fun i rest v h => suffix_split (keeps_RadioTap i rest v h),
   fun i rest v h => suffix_split (keeps_Dot11Frame i rest v h)⟩

/-- C7, witness: the UDP conjunct applied to the concrete datagram, and the
802.11 conjunct applied to the concrete protected frame. -/
theorem c7_consumed_plus_remaining_witness :
    (∃ consumed, consumed ++ [1, 2, 3] = udpInput ∧
      consumed.length + ([1, 2, 3] : List Nat).length = udpInput.length) ∧
    (∃ consumed, consumed ++ ([] : List Nat) = protectedExtFrameInput ∧
      consumed.length + ([] : List Nat).length =
        protectedExtFrameInput.length) :=
  ⟨c7_consumed_plus_remaining.2.2.2.2.2.1 udpInput [1, 2, 3]
    { src_port := 7, dst_port := 9, len := 12, checksum := 0,
      payload := [1, 2, 3] } rfl,
   c7_consumed_plus_remaining.2.2.2.2.2.2.2.2 protectedExtFrameInput []
    protectedExtFrame rfl⟩

end Netparse
